import Mathlib

/-
Verification of the ProdAPI backend (FastAPI + SQLAlchemy social platform).

The development shallowly embeds the database layer (`app/db/functions.py`,
`app/db/models.py`), the response builders (`app/utils/scripts.py`), the token
helpers (`app/utils/security.py`) and the private-router handlers
(`app/routers/private.py`) as pure Lean functions over an explicit database
state, and proves or refutes the specified properties of the reaction ledger,
the access gate, the friend graph and the token service.

Modelling conventions:
- A SQL table is a list of rows; autoincrement / primary-key order is the list
  order.  A `SELECT ... WHERE` with `one_or_none` is `List.find?`; a plain
  `.all()` is `List.filter` in table order (the queries in this code base have
  no `ORDER BY`, and the row order a PostgreSQL primary-key scan yields is the
  insertion/key order of the table list).
- `session.add` + `commit` appends a row; ORM attribute mutation + `commit`
  rewrites the stored row(s) with the same primary-key columns.
- Timestamps are naturals, counters are integers (Python ints), ids are
  naturals (autoincrement ids start at 1); display-only columns that no claim
  mentions (tags, created-at of posts, emails, password hashes, ...) are
  omitted.
- An unhandled Python exception escaping a handler (e.g. attribute access on
  `None`) is the distinguished result `pythonError`; an `HTTPException` is
  `httpError status`.
-/

namespace ProdAPI

/-- Reaction type enum (`app/utils/enums.py`, referenced from
`app/db/models.py` and `app/db/functions.py`).  The file itself is not in the
repository snapshot; modelled from the spec: `type ∈ {none, like, dislike}`,
where `none` is the NULL value of the nullable `reaction_type` column, so the
enum carries the two non-null members.  Python `Enum` members are truthy, so
`not reaction.reaction_type` tests exactly for NULL/`None`. -/
inductive ReactionType where
  | like
  | dislike
deriving DecidableEq, Repr

/-- Row of the `users` table (`app/db/models.py`, class `User`); columns not
used by any verified property are omitted. -/
structure UserRow where
  id : Nat
  login : String
  is_public : Bool
deriving DecidableEq, Repr

/-- Row of the `posts` table (`app/db/models.py`, class `Post`). -/
structure PostRow where
  id : String
  content : String
  author : Nat
  likes_count : Int
  dislikes_count : Int
deriving DecidableEq, Repr

/-- Row of the `friendships` table (`app/db/models.py`, class `Friendship`). -/
structure FriendshipRow where
  user_id : Nat
  friend_id : Nat
  added_at : Nat
deriving DecidableEq, Repr

/-- Row of the `reactions` table (`app/db/models.py`, class `Reaction`);
`reaction_type` is nullable and defaults to NULL on insert. -/
structure ReactionRow where
  user_id : Nat
  post_id : String
  reaction_type : Option ReactionType
deriving DecidableEq, Repr

/-- The database state: one list per table, in primary-key/insertion order. -/
structure DB where
  users : List UserRow
  friendships : List FriendshipRow
  posts : List PostRow
  reactions : List ReactionRow
deriving DecidableEq, Repr

/-- Translation of `get_user_by_login` (`app/db/functions.py`): `if not login: return None`,
then `SELECT ... WHERE User.login == login` with `one_or_none`. -/
def get_user_by_login (db : DB) (login : String) : Option UserRow :=
  if login == "" then none
  else db.users.find? (fun u => u.login == login)

/-- Translation of `get_user_by_id` (`app/db/functions.py`): `if not user_id: return None`,
then `SELECT ... WHERE User.id == user_id` with `one_or_none`. -/
def get_user_by_id (db : DB) (user_id : Nat) : Option UserRow :=
  if user_id == 0 then none
  else db.users.find? (fun u => u.id == user_id)

/-- Translation of `get_public_user_by_login` (`app/db/functions.py`):
`WHERE and_(User.is_public, User.login == login)` with `one_or_none`. -/
def get_public_user_by_login (db : DB) (login : String) : Option UserRow :=
  if login == "" then none
  else db.users.find? (fun u => u.is_public && u.login == login)

/-- The friend ids of `user_id`: first query of `get_user_all_friends` and of
`get_user_friends_for_pagination` (`app/db/functions.py`):
`SELECT Friendship.friend_id WHERE Friendship.user_id == user_id`. -/
def friend_ids_of (db : DB) (user_id : Nat) : List Nat :=
  (db.friendships.filter (fun f => f.user_id == user_id)).map (fun f => f.friend_id)

/-- Translation of `get_user_all_friends` (`app/db/functions.py`): the friend-id query above
followed by `SELECT User WHERE User.id.in_(friend_ids)`, rows in users-table
order. -/
def get_user_all_friends (db : DB) (user_id : Nat) : List UserRow :=
  db.users.filter (fun u => (friend_ids_of db user_id).contains u.id)

/-- Translation of `get_user_friends_for_pagination` (`app/db/functions.py`): the same two
queries, with `.offset(offset).limit(limit)` applied to the *users* query. -/
def get_user_friends_for_pagination (db : DB) (user_id offset limit : Nat) : List UserRow :=
  ((db.users.filter (fun u => (friend_ids_of db user_id).contains u.id)).drop offset).take limit

/-- Translation of `get_user_friends_added_at_for_pagination` (`app/db/functions.py`):
`SELECT Friendship.added_at WHERE user_id == ... OFFSET offset LIMIT limit`,
rows in friendships-table (insertion) order. -/
def get_user_friends_added_at_for_pagination (db : DB) (user_id offset limit : Nat) : List Nat :=
  (((db.friendships.filter (fun f => f.user_id == user_id)).map (fun f => f.added_at)).drop
    offset).take limit

/-- Translation of `get_user_friend` (`app/db/functions.py`): point lookup of the edge
`(user_id, friend_id)` with `one_or_none`. -/
def get_user_friend (db : DB) (user_id friend_id : Nat) : Option FriendshipRow :=
  db.friendships.find? (fun f => f.user_id == user_id && f.friend_id == friend_id)

/-- Translation of `add_friend` (`app/db/functions.py`): insert `(user_id, friend_id, now)`
and commit; `added_at` defaults to the current time. -/
def add_friend (db : DB) (user_id friend_id now : Nat) : DB × FriendshipRow :=
  let f : FriendshipRow := ⟨user_id, friend_id, now⟩
  ({ db with friendships := db.friendships ++ [f] }, f)

/-- Translation of `get_post_by_id` (`app/db/functions.py`): `WHERE Post.id == post_id` with
`one_or_none`. -/
def get_post_by_id (db : DB) (post_id : String) : Option PostRow :=
  db.posts.find? (fun p => p.id == post_id)

/-- Translation of `get_all_user_posts_for_pagination` (`app/db/functions.py`):
`SELECT Post WHERE Post.author == user_id OFFSET offset LIMIT limit`. -/
def get_all_user_posts_for_pagination (db : DB) (user_id offset limit : Nat) : List PostRow :=
  ((db.posts.filter (fun p => p.author == user_id)).drop offset).take limit

/-- Translation of `get_user_reaction_to_post` (`app/db/functions.py`):
`WHERE and_(Reaction.post_id == post_id, Reaction.user_id == user_id)` with
`one_or_none`. -/
def get_user_reaction_to_post (db : DB) (user_id : Nat) (post_id : String) : Option ReactionRow :=
  db.reactions.find? (fun r => r.post_id == post_id && r.user_id == user_id)

/-- Translation of `add_new_user_reaction` (`app/db/functions.py`): insert a reaction row for
`(user_id, post_id)` with NULL `reaction_type`, and commit. -/
def add_new_user_reaction (db : DB) (user_id : Nat) (post_id : String) : DB × ReactionRow :=
  let r : ReactionRow := ⟨user_id, post_id, none⟩
  ({ db with reactions := db.reactions ++ [r] }, r)

/-- Translation of `add_like_to_post` (`app/db/functions.py`): if the current reaction is
`dislike` then `likes_count += 1; dislikes_count -= 1`; elif the reaction type
is NULL then `likes_count += 1`; then `reaction.reaction_type = like` and
commit.  The commit persists the mutated `post` and `reaction` rows (matched
by their key columns). -/
def add_like_to_post (db : DB) (post : PostRow) (reaction : ReactionRow) : DB × PostRow :=
  let post' :=
    if reaction.reaction_type == some ReactionType.dislike then
      { post with likes_count := post.likes_count + 1,
                  dislikes_count := post.dislikes_count - 1 }
    else if reaction.reaction_type == none then
      { post with likes_count := post.likes_count + 1 }
    else post
  let reaction' : ReactionRow := { reaction with reaction_type := some ReactionType.like }
  let db' : DB := { db with
    posts := db.posts.map (fun p => if p.id == post.id then post' else p),
    reactions := db.reactions.map (fun r =>
      if r.user_id == reaction.user_id && r.post_id == reaction.post_id then reaction' else r) }
  (db', post')

/-- Translation of `add_dislike_to_post` (`app/db/functions.py`): mirror image of
`add_like_to_post`. -/
def add_dislike_to_post (db : DB) (post : PostRow) (reaction : ReactionRow) : DB × PostRow :=
  let post' :=
    if reaction.reaction_type == some ReactionType.like then
      { post with dislikes_count := post.dislikes_count + 1,
                  likes_count := post.likes_count - 1 }
    else if reaction.reaction_type == none then
      { post with dislikes_count := post.dislikes_count + 1 }
    else post
  let reaction' : ReactionRow := { reaction with reaction_type := some ReactionType.dislike }
  let db' : DB := { db with
    posts := db.posts.map (fun p => if p.id == post.id then post' else p),
    reactions := db.reactions.map (fun r =>
      if r.user_id == reaction.user_id && r.post_id == reaction.post_id then reaction' else r) }
  (db', post')

/-- The body of the `PostModel` response (`app/utils/models.py`); display-only
fields (`tags`, `createdAt`) are omitted. -/
structure PostResponse where
  id : String
  content : String
  author : String
  likesCount : Int
  dislikesCount : Int
deriving DecidableEq, Repr

/-- The body of a `FriendResponseModel` response (`app/utils/models.py`). -/
structure FriendResponse where
  login : String
  addedAt : Nat
deriving DecidableEq, Repr

/-- Translation of `get_friends_list` (`app/utils/scripts.py`): `zip(friends, added_ats)` and
build a `FriendResponseModel` from each positional pair. -/
def get_friends_list (friends : List UserRow) (added_ats : List Nat) : List FriendResponse :=
  (friends.zip added_ats).map (fun p => ⟨p.1.login, p.2⟩)

/-- Translation of `get_posts_list` (`app/utils/scripts.py`): builds a `PostModel` per post;
in the source the `dislikesCount` field is populated from `post.likes_count`
(and `likesCount` from `post.likes_count` as well). -/
def get_posts_list (posts : List PostRow) (author : String) : List PostResponse :=
  posts.map (fun p => ⟨p.id, p.content, author, p.likes_count, p.likes_count⟩)

/-- Outcome of a handler that returns a single `PostModel`
(`send_post`, `send_like`, `send_dislike` in `app/routers/private.py`):
a 200 body, an `HTTPException` status, or an unhandled Python exception. -/
inductive PostResult where
  | ok (resp : PostResponse)
  | httpError (status : Nat)
  | pythonError
deriving DecidableEq, Repr

/-- Outcome of `send_profile_by_login` (`app/routers/private.py`): the 200
profile body (identified by the returned user row), an `HTTPException`
status, or an unhandled Python exception. -/
inductive ProfileResult where
  | ok (user : UserRow)
  | httpError (status : Nat)
  | pythonError
deriving DecidableEq, Repr

/-- Outcome of a feed handler (`send_user_posts_by_login`). -/
inductive FeedResult where
  | ok (resps : List PostResponse)
  | httpError (status : Nat)
deriving DecidableEq, Repr

/-- Outcome of a `ResponseStatusModel` handler (`add_new_friend`). -/
inductive StatusResult where
  | ok
  | httpError (status : Nat)
deriving DecidableEq, Repr

/-- Translation of `send_profile_by_login` (`app/routers/private.py`, GET
`/api/profiles/{login}`): self → own profile; else if the login is among the
logins of the requester's outgoing friends → `get_user_by_login`; otherwise
`get_public_user_by_login`, raising HTTP 403 when that returns `None` (the
detail says the user may not exist or may be inaccessible). -/
def send_profile_by_login (db : DB) (current_user : UserRow) (login : String) : ProfileResult :=
  if current_user.login == login then ProfileResult.ok current_user
  else
    let user_friend_logins := (get_user_all_friends db current_user.id).map (fun u => u.login)
    if user_friend_logins.contains login then
      match get_user_by_login db login with
      | some user => ProfileResult.ok user
      | none => ProfileResult.pythonError
    else
      match get_public_user_by_login db login with
      | some user => ProfileResult.ok user
      | none => ProfileResult.httpError 403

/-- Translation of `add_new_friend` (`app/routers/private.py`, POST `/api/friends/add`):
self-add → ok with no change; unknown login → HTTP 404; already a friend → ok
with no change; otherwise insert the edge and return ok. -/
def add_new_friend (db : DB) (current_user : UserRow) (login : String) (now : Nat) :
    StatusResult × DB :=
  if current_user.login == login then (StatusResult.ok, db)
  else
    match get_user_by_login db login with
    | none => (StatusResult.httpError 404, db)
    | some friend =>
      let current_user_friend_ids := (get_user_all_friends db current_user.id).map (fun u => u.id)
      if current_user_friend_ids.contains friend.id then (StatusResult.ok, db)
      else (StatusResult.ok, (add_friend db current_user.id friend.id now).1)

/-- Translation of `send_my_friends` (`app/routers/private.py`, GET `/api/friends`): two
independently paginated queries — friend users and edge timestamps — zipped
positionally by `get_friends_list`. -/
def send_my_friends (db : DB) (current_user : UserRow) (offset limit : Nat) :
    List FriendResponse :=
  get_friends_list
    (get_user_friends_for_pagination db current_user.id offset limit)
    (get_user_friends_added_at_for_pagination db current_user.id offset limit)

/-- Translation of `send_post` (`app/routers/private.py`, GET `/api/posts/{postId}`): 404 if
the post is absent; then the access check — self, or public author, or the
requester's id among the *author's* outgoing friend ids — else 404.  The 200
body reports the stored `likes_count` and `dislikes_count`.  A missing author
row would crash on attribute access (`pythonError`). -/
def send_post (db : DB) (current_user : UserRow) (post_id : String) : PostResult :=
  match get_post_by_id db post_id with
  | none => PostResult.httpError 404
  | some post =>
    match get_user_by_id db post.author with
    | none => PostResult.pythonError
    | some post_author =>
      if current_user.id == post_author.id then
        PostResult.ok ⟨post.id, post.content, post_author.login, post.likes_count,
          post.dislikes_count⟩
      else if post_author.is_public then
        PostResult.ok ⟨post.id, post.content, post_author.login, post.likes_count,
          post.dislikes_count⟩
      else if ((get_user_all_friends db post_author.id).map (fun u => u.id)).contains
          current_user.id then
        PostResult.ok ⟨post.id, post.content, post_author.login, post.likes_count,
          post.dislikes_count⟩
      else PostResult.httpError 404

/-- Translation of `send_my_posts` (`app/routers/private.py`, GET `/api/posts/feed/my`): the
requester's paginated posts rendered by `get_posts_list`. -/
def send_my_posts (db : DB) (current_user : UserRow) (offset limit : Nat) : List PostResponse :=
  get_posts_list (get_all_user_posts_for_pagination db current_user.id offset limit)
    current_user.login

/-- Translation of `send_user_posts_by_login` (`app/routers/private.py`, GET
`/api/posts/feed/{login}`): 404 if the login is unknown; then the same access
check as `send_post` (requester's id among the *author's* outgoing friend
ids); else the author's paginated posts rendered by `get_posts_list`. -/
def send_user_posts_by_login (db : DB) (current_user : UserRow) (login : String)
    (offset limit : Nat) : FeedResult :=
  match get_user_by_login db login with
  | none => FeedResult.httpError 404
  | some post_author =>
    if current_user.id == post_author.id then
      FeedResult.ok (get_posts_list
        (get_all_user_posts_for_pagination db post_author.id offset limit) login)
    else if post_author.is_public then
      FeedResult.ok (get_posts_list
        (get_all_user_posts_for_pagination db post_author.id offset limit) login)
    else if ((get_user_all_friends db post_author.id).map (fun u => u.id)).contains
        current_user.id then
      FeedResult.ok (get_posts_list
        (get_all_user_posts_for_pagination db post_author.id offset limit) login)
    else FeedResult.httpError 404

/-- Translation of `send_like` (`app/routers/private.py`, POST `/api/posts/{postId}/like`):
fetch the post (no absence check), fetch or create-and-commit the reaction
row, then `add_like_to_post`.  When the post is absent, `add_like_to_post`
dereferences `None` (`post.likes_count += 1` or `db_session.refresh(post)`)
and the handler raises an unhandled exception *after* the reaction row was
committed; the final body resolves the author row (attribute access on a
missing author also crashes, after the counter commit). -/
def send_like (db : DB) (current_user : UserRow) (post_id : String) : PostResult × DB :=
  let post? := get_post_by_id db post_id
  let reaction? := get_user_reaction_to_post db current_user.id post_id
  let step1 : DB × ReactionRow :=
    match reaction? with
    | some r => (db, r)
    | none => add_new_user_reaction db current_user.id post_id
  match post? with
  | none => (PostResult.pythonError, step1.1)
  | some post =>
    let step2 := add_like_to_post step1.1 post step1.2
    (match get_user_by_id step2.1 step2.2.author with
     | none => PostResult.pythonError
     | some post_author =>
       PostResult.ok ⟨step2.2.id, step2.2.content, post_author.login, step2.2.likes_count,
         step2.2.dislikes_count⟩, step2.1)

/-- Translation of `send_dislike` (`app/routers/private.py`, POST
`/api/posts/{postId}/dislike`): mirror image of `send_like` via
`add_dislike_to_post`. -/
def send_dislike (db : DB) (current_user : UserRow) (post_id : String) : PostResult × DB :=
  let post? := get_post_by_id db post_id
  let reaction? := get_user_reaction_to_post db current_user.id post_id
  let step1 : DB × ReactionRow :=
    match reaction? with
    | some r => (db, r)
    | none => add_new_user_reaction db current_user.id post_id
  match post? with
  | none => (PostResult.pythonError, step1.1)
  | some post =>
    let step2 := add_dislike_to_post step1.1 post step1.2
    (match get_user_by_id step2.1 step2.2.author with
     | none => PostResult.pythonError
     | some post_author =>
       PostResult.ok ⟨step2.2.id, step2.2.content, post_author.login, step2.2.likes_count,
         step2.2.dislikes_count⟩, step2.1)

/-- Token payload: the dict passed to `jwt.encode` by `create_access_token`
(`app/utils/security.py`).  Every caller passes `{"sub": <login>}`, and the
function adds the `"exp"` claim, so the payload is modelled as those two
claims. -/
structure JwtPayload where
  sub : String
  exp : Int
deriving DecidableEq, Repr

/-- An encoded JWT, modelling `jwt.encode(payload, key, algorithm)`: the
token determines the payload and carries which key/algorithm signed it (an
honestly signed token verifies exactly under the signing key and algorithm;
forgery is outside the model). -/
structure Jwt where
  payload : JwtPayload
  key : String
  alg : String
deriving DecidableEq, Repr

/-- Translation of `create_access_token` (`app/utils/security.py`): `if expire_delta:` —
falsy for both `None` and a zero timedelta — choose the configured TTL
(`days/hours/minutes` from `Config`), else `now + expire_delta`; then encode
`{sub, exp}` under the configured secret and algorithm. -/
def create_access_token (secret alg : String) (config_delta : Int) (sub : String)
    (expire_delta : Option Int) (now : Int) : Jwt :=
  let expire : Int :=
    match expire_delta with
    | some d => if d == 0 then now + config_delta else now + d
    | none => now + config_delta
  { payload := { sub := sub, exp := expire }, key := secret, alg := alg }

/-- Translation of `decode_access_token` (`app/utils/security.py`): `jwt.decode` verifies the
signature against the configured secret/algorithm and (by PyJWT default, zero
leeway) rejects tokens with `exp <= now`; any `PyJWTError` yields `None`. -/
def decode_access_token (secret alg : String) (token : Jwt) (now : Int) : Option JwtPayload :=
  if token.key == secret && token.alg == alg && decide (now < token.payload.exp) then
    some token.payload
  else none

/-- The reaction state of `(user, post)`: the stored `reaction_type` when a
row exists, and `none` otherwise — the NULL column of a fresh row and an
absent row both read as state `none`, matching how `add_like_to_post` and
`add_dislike_to_post` treat them. -/
def reaction_state (db : DB) (user_id : Nat) (post_id : String) : Option ReactionType :=
  match get_user_reaction_to_post db user_id post_id with
  | none => none
  | some r => r.reaction_type

/-- Number of reaction rows for `post_id` currently in state `like`. -/
def likeRowCount (db : DB) (post_id : String) : Nat :=
  db.reactions.countP
    (fun r => r.post_id == post_id && r.reaction_type == some ReactionType.like)

/-- Number of reaction rows for `post_id` currently in state `dislike`. -/
def dislikeRowCount (db : DB) (post_id : String) : Nat :=
  db.reactions.countP
    (fun r => r.post_id == post_id && r.reaction_type == some ReactionType.dislike)

/-- Number of reaction rows for `post_id` currently in state `like` or
`dislike`. -/
def engagedRowCount (db : DB) (post_id : String) : Nat :=
  db.reactions.countP
    (fun r => r.post_id == post_id &&
      (r.reaction_type == some ReactionType.like || r.reaction_type == some ReactionType.dislike))

/-- At most one reaction row per `(user_id, post_id)` — the uniqueness the
schema intends and `one_or_none` relies on. -/
def reactionKeysUnique (db : DB) : Prop :=
  db.reactions.Pairwise (fun r s => ¬(r.user_id = s.user_id ∧ r.post_id = s.post_id))

/-- At most one friendship row per `(user_id, friend_id)` — the uniqueness
the handler's membership check maintains and `one_or_none` relies on. -/
def friendshipKeysUnique (db : DB) : Prop :=
  db.friendships.Pairwise (fun f g => ¬(f.user_id = g.user_id ∧ f.friend_id = g.friend_id))

/-- Logins are unique across users (spec data model: login is unique). -/
def loginsUnique (db : DB) : Prop :=
  db.users.Pairwise (fun u v => u.login ≠ v.login)

/-- A like/dislike toggle request by a user (the two mutating reaction
endpoints). -/
inductive ReactionOp where
  | like (user : UserRow)
  | dislike (user : UserRow)
deriving DecidableEq, Repr

/-- Run one toggle endpoint against the database, keeping the resulting
state. -/
def applyOp (post_id : String) (db : DB) : ReactionOp → DB
  | ReactionOp.like u => (send_like db u post_id).2
  | ReactionOp.dislike u => (send_dislike db u post_id).2

/-- Run a sequence of toggle endpoints left to right. -/
def applyOps (post_id : String) (db : DB) (ops : List ReactionOp) : DB :=
  ops.foldl (applyOp post_id) db

/-- The post row `add_like_to_post` writes back, as a function of the current
reaction type; definitionally the update in `add_like_to_post`. -/
def like_counter_update (post : PostRow) (t : Option ReactionType) : PostRow :=
  if t == some ReactionType.dislike then
    { post with likes_count := post.likes_count + 1, dislikes_count := post.dislikes_count - 1 }
  else if t == none then { post with likes_count := post.likes_count + 1 }
  else post

/-- The post row `add_dislike_to_post` writes back, as a function of the
current reaction type. -/
def dislike_counter_update (post : PostRow) (t : Option ReactionType) : PostRow :=
  if t == some ReactionType.like then
    { post with dislikes_count := post.dislikes_count + 1, likes_count := post.likes_count - 1 }
  else if t == none then { post with dislikes_count := post.dislikes_count + 1 }
  else post

section ExampleData

/-- A one-user, one-post database in which user 1 currently dislikes the post;
used to witness the reaction state machine on concrete data. -/
def exToggleDB : DB :=
  ⟨[⟨1, "alice", true⟩], [], [⟨"p", "hi", 1, 3, 4⟩],
    [⟨1, "p", some ReactionType.dislike⟩]⟩

/-- A database with a single user and no posts; liking the absent post `q`
exhibits the partial commit of the reaction toggle. -/
def exNoPostDB : DB := ⟨[⟨2, "bob", true⟩], [], [], []⟩

/-- A database with a single user and no posts, for the absent-post
like/dislike endpoint behaviour. -/
def exAbsentPostDB : DB := ⟨[⟨1, "alice", true⟩], [], [], []⟩

/-- A database where user 1 added friend 3 (at time 10) before friend 2 (at
time 20): friendship insertion order disagrees with user-id order. -/
def exFriendsDB : DB :=
  ⟨[⟨1, "owner", true⟩, ⟨2, "bob", true⟩, ⟨3, "carol", true⟩],
    [⟨1, 3, 10⟩, ⟨1, 2, 20⟩], [], []⟩

/-- A database where private user 2 ("bob") owns post `p` and requester 1
("alice") holds the outgoing edge 1 → 2; the reverse edge is absent. -/
def exRequesterEdgeDB : DB :=
  ⟨[⟨1, "alice", false⟩, ⟨2, "bob", false⟩], [⟨1, 2, 5⟩], [⟨"p", "hi", 2, 0, 0⟩], []⟩

/-- A database where private user 2 ("bob") owns post `p` and only the edge
2 → 1 (author towards requester) exists. -/
def exAuthorEdgeDB : DB :=
  ⟨[⟨1, "alice", false⟩, ⟨2, "bob", false⟩], [⟨2, 1, 5⟩], [⟨"p", "hi", 2, 0, 0⟩], []⟩

/-- A one-user database with no user of login `ghost`; used for the profile
endpoint's absent-user status. -/
def exProfileDB : DB := ⟨[⟨1, "alice", true⟩], [], [], []⟩

/-- A two-user database with no friendships yet; used for the friend-add
idempotence witness. -/
def exAddFriendDB : DB := ⟨[⟨1, "alice", true⟩, ⟨2, "bob", true⟩], [], [], []⟩

/-- A two-user database whose only post starts with zero counters and no
reaction rows; used for the toggle-sequence invariant witness. -/
def exSeqDB : DB := ⟨[⟨1, "alice", true⟩, ⟨2, "bob", true⟩], [], [⟨"p", "hi", 1, 0, 0⟩], []⟩

/-- A database whose only post has unequal stored counters (7 likes, 2
dislikes), authored by public user 1. -/
def exFeedDB : DB := ⟨[⟨1, "alice", true⟩], [], [⟨"p", "hi", 1, 7, 2⟩], []⟩

end ExampleData

section ListLemmas

variable {α : Type}

/-- Auxiliary: `find?` commutes with a map that preserves the predicate. -/
theorem find?_map_of_pred_eq (f : α → α) (p : α → Bool) (l : List α)
    (h : ∀ a, p (f a) = p a) : (l.map f).find? p = (l.find? p).map f := by
  induction l with
  | nil => rfl
  | cons a t ih =>
    by_cases hp : p a = true
    · simp [List.find?_cons, h, hp]
    · have hp' : p a = false := by simpa using hp
      simp [List.find?_cons, h, hp', ih]

/-- Auxiliary: `find?` over an append looks right when the left part has no
match. -/
theorem find?_append_of_none (l₁ l₂ : List α) (p : α → Bool)
    (h : l₁.find? p = none) : (l₁ ++ l₂).find? p = l₂.find? p := by
  induction l₁ with
  | nil => rfl
  | cons a t ih =>
    rw [List.find?_eq_none] at h
    have hp : p a = false := by simpa using h a (by simp)
    have ht : t.find? p = none := by
      rw [List.find?_eq_none]
      intro x hx
      exact h x (by simp [hx])
    simpa [List.find?_cons, hp] using ih ht

/-- Auxiliary: a keyed update is the identity on a list without the key. -/
theorem map_eq_self_of_no_match (l : List α) (q : α → Bool) (g : α → α)
    (h : ∀ a ∈ l, q a = false) : (l.map fun a => if q a then g a else a) = l := by
  induction l with
  | nil => rfl
  | cons a t ih =>
    have ha : q a = false := h a (by simp)
    have ht := ih (fun x hx => h x (by simp [hx]))
    simp [ha, ht]

/-- Auxiliary: a successful `find?` splits the list at the first match. -/
theorem find?_some_decomp (l : List α) (p : α → Bool) (a : α)
    (h : l.find? p = some a) :
    ∃ l₁ l₂, l = l₁ ++ a :: l₂ ∧ ∀ b ∈ l₁, p b = false := by
  induction l with
  | nil => simp [List.find?] at h
  | cons x t ih =>
    by_cases hp : p x = true
    · refine ⟨[], t, ?_, by simp⟩
      rw [List.find?_cons_of_pos _ hp] at h
      simp_all
    · have hp' : p x = false := by simpa using hp
      rw [List.find?_cons_of_neg _ (by simp [hp'])] at h
      obtain ⟨l₁, l₂, rfl, hl₁⟩ := ih h
      exact ⟨x :: l₁, l₂, by simp, by
        intro b hb
        rcases List.mem_cons.mp hb with rfl | hb
        · exact hp'
        · exact hl₁ b hb⟩

end ListLemmas

@[simp]
theorem like_counter_update_id (post : PostRow) (t : Option ReactionType) :
    (like_counter_update post t).id = post.id := by
  unfold like_counter_update
  split
  · rfl
  · split <;> rfl

@[simp]
theorem dislike_counter_update_id (post : PostRow) (t : Option ReactionType) :
    (dislike_counter_update post t).id = post.id := by
  unfold dislike_counter_update
  split
  · rfl
  · split <;> rfl

theorem add_like_to_post_eq (db : DB) (post : PostRow) (reaction : ReactionRow) :
    add_like_to_post db post reaction =
      ({ db with
          posts := db.posts.map (fun p =>
            if p.id == post.id then like_counter_update post reaction.reaction_type else p),
          reactions := db.reactions.map (fun r =>
            if r.user_id == reaction.user_id && r.post_id == reaction.post_id then
              { reaction with reaction_type := some ReactionType.like }
            else r) },
        like_counter_update post reaction.reaction_type) := rfl

theorem add_dislike_to_post_eq (db : DB) (post : PostRow) (reaction : ReactionRow) :
    add_dislike_to_post db post reaction =
      ({ db with
          posts := db.posts.map (fun p =>
            if p.id == post.id then dislike_counter_update post reaction.reaction_type else p),
          reactions := db.reactions.map (fun r =>
            if r.user_id == reaction.user_id && r.post_id == reaction.post_id then
              { reaction with reaction_type := some ReactionType.dislike }
            else r) },
        dislike_counter_update post reaction.reaction_type) := rfl

section KeyedLookups

/-- Auxiliary: replacing the post found by an id lookup with a row of the same
id makes the lookup return the replacement. -/
theorem find?_posts_update (posts : List PostRow) (post_id : String) (post post' : PostRow)
    (hfind : posts.find? (fun p => p.id == post_id) = some post)
    (hid : post'.id = post.id) :
    (posts.map (fun p => if p.id == post.id then post' else p)).find?
      (fun p => p.id == post_id) = some post' := by
  have hpk : post.id = post_id := by simpa using List.find?_some hfind
  have hpres : ∀ a : PostRow,
      (((if a.id == post.id then post' else a).id == post_id)) = (a.id == post_id) := by
    intro a
    by_cases ha : (a.id == post.id) = true
    · have ha' : a.id = post.id := by simpa using ha
      simp [ha, hid, ha']
    · simp [ha]
  rw [find?_map_of_pred_eq _ _ _ hpres, hfind]
  simp

/-- Auxiliary: replacing the reaction row found by a key lookup with a row of
the same key makes the lookup return the replacement. -/
theorem find?_reactions_update (rs : List ReactionRow) (user_id : Nat) (post_id : String)
    (r r' : ReactionRow)
    (hfind : rs.find? (fun x => x.post_id == post_id && x.user_id == user_id) = some r)
    (hu : r'.user_id = r.user_id) (hp : r'.post_id = r.post_id) :
    (rs.map (fun x =>
      if x.user_id == r.user_id && x.post_id == r.post_id then r' else x)).find?
      (fun x => x.post_id == post_id && x.user_id == user_id) = some r' := by
  have hk := List.find?_some hfind
  simp only [Bool.and_eq_true, beq_iff_eq] at hk
  have hpres : ∀ a : ReactionRow,
      (((if a.user_id == r.user_id && a.post_id == r.post_id then r' else a).post_id == post_id)
        && ((if a.user_id == r.user_id && a.post_id == r.post_id then r' else a).user_id
          == user_id)) =
      ((a.post_id == post_id) && (a.user_id == user_id)) := by
    intro a
    by_cases ha : (a.user_id == r.user_id && a.post_id == r.post_id) = true
    · simp only [Bool.and_eq_true, beq_iff_eq] at ha
      simp [ha.1, ha.2, hu, hp, hk.1, hk.2]
    · simp [ha]
  rw [find?_map_of_pred_eq _ _ _ hpres, hfind]
  simp

/-- Auxiliary: the keyed reaction update on a table without the key, extended
by a fresh row carrying the key, rewrites exactly the fresh row. -/
theorem reactions_map_append_fresh (rs : List ReactionRow) (user_id : Nat) (post_id : String)
    (r' : ReactionRow)
    (hnone : rs.find? (fun x => x.post_id == post_id && x.user_id == user_id) = none) :
    ((rs ++ [(⟨user_id, post_id, none⟩ : ReactionRow)]).map
      (fun x => if x.user_id == user_id && x.post_id == post_id then r' else x)) =
      rs ++ [r'] := by
  rw [List.map_append]
  have h1 : rs.map (fun x => if x.user_id == user_id && x.post_id == post_id then r' else x)
      = rs := by
    apply map_eq_self_of_no_match
    intro a ha
    have hnot := List.find?_eq_none.mp hnone a ha
    cases hau : (a.user_id == user_id) <;> cases hap : (a.post_id == post_id) <;> simp_all
  rw [h1]
  simp

end KeyedLookups

section Membership

/-- Auxiliary: `get_user_friend` succeeds exactly when a friendship row with
that key is in the table. -/
theorem get_user_friend_ne_none_iff (db : DB) (owner_id target_id : Nat) :
    get_user_friend db owner_id target_id ≠ none ↔
      ∃ f ∈ db.friendships, f.user_id = owner_id ∧ f.friend_id = target_id := by
  constructor
  · intro h
    obtain ⟨f, hf⟩ := Option.ne_none_iff_exists'.mp h
    have hmem := List.mem_of_find?_eq_some hf
    have hpred := List.find?_some hf
    simp only [Bool.and_eq_true, beq_iff_eq] at hpred
    exact ⟨f, hmem, hpred.1, hpred.2⟩
  · rintro ⟨f, hmem, h1, h2⟩ hnone
    have := List.find?_eq_none.mp hnone f hmem
    simp [h1, h2] at this

/-- Auxiliary: the friend-id query result contains a target id exactly when
the corresponding edge row exists. -/
theorem friend_ids_mem_iff (db : DB) (owner_id target_id : Nat) :
    target_id ∈ friend_ids_of db owner_id ↔
      ∃ f ∈ db.friendships, f.user_id = owner_id ∧ f.friend_id = target_id := by
  simp only [friend_ids_of, List.mem_map, List.mem_filter, beq_iff_eq]
  constructor
  · rintro ⟨f, ⟨hmem, h1⟩, h2⟩
    exact ⟨f, hmem, h1, h2⟩
  · rintro ⟨f, hmem, h1, h2⟩
    exact ⟨f, ⟨hmem, h1⟩, h2⟩

/-- Auxiliary: a user row `u` appears in the loaded friend list of `owner_id`
(by id) exactly when the outgoing edge `owner_id → u.id` exists; `u` must be a
user of the database (the query joins through the users table). -/
theorem contains_friends_iff_edge (db : DB) (owner_id : Nat) (u : UserRow)
    (hu : u ∈ db.users) :
    (((get_user_all_friends db owner_id).map (fun x => x.id)).contains u.id = true) ↔
      get_user_friend db owner_id u.id ≠ none := by
  rw [get_user_friend_ne_none_iff]
  simp only [get_user_all_friends, List.contains, List.elem_iff, List.mem_map, List.mem_filter]
  constructor
  · rintro ⟨v, ⟨_, hvf⟩, hvid⟩
    exact (friend_ids_mem_iff db owner_id u.id).mp (hvid ▸ hvf)
  · intro h
    exact ⟨u, ⟨hu, (friend_ids_mem_iff db owner_id u.id).mpr h⟩, rfl⟩

/-- Auxiliary: with pairwise-distinct logins, two user rows sharing a login
are the same row. -/
theorem login_inj (db : DB) (h : loginsUnique db) (u v : UserRow)
    (hu : u ∈ db.users) (hv : v ∈ db.users) (hl : u.login = v.login) : u = v := by
  by_contra hne
  exact List.Pairwise.forall (fun a b hab => hab ∘ Eq.symm) h hu hv hne hl

/-- Auxiliary: with at most one row per key, a successful keyed `find?` means
the key occurs exactly once. -/
theorem countP_eq_one_of_unique_key {α : Type} (l : List α) (p : α → Bool)
    (R : α → α → Prop) (hpair : l.Pairwise R)
    (hcontra : ∀ b c, p b = true → p c = true → ¬R b c)
    (a : α) (hfind : l.find? p = some a) : l.countP p = 1 := by
  obtain ⟨l₁, l₂, heq, hl₁⟩ := find?_some_decomp l p a hfind
  subst heq
  have hpa : p a = true := List.find?_some hfind
  have h1 : l₁.countP p = 0 := List.countP_eq_zero.mpr (fun b hb => by simp [hl₁ b hb])
  have hR : ∀ c ∈ l₂, R a c :=
    (List.pairwise_cons.mp (List.pairwise_append.mp hpair).2.1).1
  have h2 : l₂.countP p = 0 :=
    List.countP_eq_zero.mpr (fun c hc hpc => hcontra a c hpa (by simpa using hpc) (hR c hc))
  rw [List.countP_append, List.countP_cons, h1, h2, hpa]
  rfl

/-- Auxiliary: a failed keyed `find?` means the key does not occur. -/
theorem countP_eq_zero_of_find?_none {α : Type} (l : List α) (p : α → Bool)
    (hfind : l.find? p = none) : l.countP p = 0 :=
  List.countP_eq_zero.mpr (List.find?_eq_none.mp hfind)

end Membership

section SendLikeState

/-- Auxiliary: the database `send_like` leaves behind when the post exists and
the user already has a reaction row. -/
theorem send_like_snd_found (db : DB) (u : UserRow) (pid : String) (post : PostRow)
    (r : ReactionRow) (hpost : get_post_by_id db pid = some post)
    (hr : get_user_reaction_to_post db u.id pid = some r) :
    (send_like db u pid).2 = (add_like_to_post db post r).1 := by
  simp [send_like, hpost, hr]

/-- Auxiliary: the database `send_like` leaves behind when the post exists and
the user has no reaction row yet. -/
theorem send_like_snd_fresh (db : DB) (u : UserRow) (pid : String) (post : PostRow)
    (hpost : get_post_by_id db pid = some post)
    (hr : get_user_reaction_to_post db u.id pid = none) :
    (send_like db u pid).2 =
      (add_like_to_post { db with reactions := db.reactions ++ [⟨u.id, pid, none⟩] } post
        (⟨u.id, pid, none⟩ : ReactionRow)).1 := by
  simp [send_like, hpost, hr, add_new_user_reaction]

/-- Auxiliary: the database `send_dislike` leaves behind when the post exists
and the user already has a reaction row. -/
theorem send_dislike_snd_found (db : DB) (u : UserRow) (pid : String) (post : PostRow)
    (r : ReactionRow) (hpost : get_post_by_id db pid = some post)
    (hr : get_user_reaction_to_post db u.id pid = some r) :
    (send_dislike db u pid).2 = (add_dislike_to_post db post r).1 := by
  simp [send_dislike, hpost, hr]

/-- Auxiliary: the database `send_dislike` leaves behind when the post exists
and the user has no reaction row yet. -/
theorem send_dislike_snd_fresh (db : DB) (u : UserRow) (pid : String) (post : PostRow)
    (hpost : get_post_by_id db pid = some post)
    (hr : get_user_reaction_to_post db u.id pid = none) :
    (send_dislike db u pid).2 =
      (add_dislike_to_post { db with reactions := db.reactions ++ [⟨u.id, pid, none⟩] } post
        (⟨u.id, pid, none⟩ : ReactionRow)).1 := by
  simp [send_dislike, hpost, hr, add_new_user_reaction]

/-- Auxiliary: `send_like` stores the post with the counters updated per the
current reaction state. -/
theorem get_post_by_id_send_like (db : DB) (u : UserRow) (pid : String) (post : PostRow)
    (hpost : get_post_by_id db pid = some post) :
    get_post_by_id (send_like db u pid).2 pid =
      some (like_counter_update post (reaction_state db u.id pid)) := by
  cases hr : get_user_reaction_to_post db u.id pid with
  | none =>
    have hs : reaction_state db u.id pid = none := by simp [reaction_state, hr]
    rw [send_like_snd_fresh db u pid post hpost hr, add_like_to_post_eq, hs]
    exact find?_posts_update db.posts pid post _ hpost (like_counter_update_id post none)
  | some r =>
    have hs : reaction_state db u.id pid = r.reaction_type := by simp [reaction_state, hr]
    rw [send_like_snd_found db u pid post r hpost hr, add_like_to_post_eq, hs]
    exact find?_posts_update db.posts pid post _ hpost (like_counter_update_id post _)

/-- Auxiliary: `send_dislike` stores the post with the counters updated per
the current reaction state. -/
theorem get_post_by_id_send_dislike (db : DB) (u : UserRow) (pid : String) (post : PostRow)
    (hpost : get_post_by_id db pid = some post) :
    get_post_by_id (send_dislike db u pid).2 pid =
      some (dislike_counter_update post (reaction_state db u.id pid)) := by
  cases hr : get_user_reaction_to_post db u.id pid with
  | none =>
    have hs : reaction_state db u.id pid = none := by simp [reaction_state, hr]
    rw [send_dislike_snd_fresh db u pid post hpost hr, add_dislike_to_post_eq, hs]
    exact find?_posts_update db.posts pid post _ hpost (dislike_counter_update_id post none)
  | some r =>
    have hs : reaction_state db u.id pid = r.reaction_type := by simp [reaction_state, hr]
    rw [send_dislike_snd_found db u pid post r hpost hr, add_dislike_to_post_eq, hs]
    exact find?_posts_update db.posts pid post _ hpost (dislike_counter_update_id post _)

theorem get_user_reaction_to_post_def (db : DB) (user_id : Nat) (post_id : String) :
    get_user_reaction_to_post db user_id post_id =
      db.reactions.find? (fun x => x.post_id == post_id && x.user_id == user_id) := rfl

/-- Auxiliary: after `send_like` on an existing post the user's reaction row
reads `like` and keeps its key. -/
theorem get_user_reaction_send_like (db : DB) (u : UserRow) (pid : String) (post : PostRow)
    (hpost : get_post_by_id db pid = some post) :
    ∃ r', get_user_reaction_to_post (send_like db u pid).2 u.id pid = some r' ∧
      r'.reaction_type = some ReactionType.like := by
  cases hr : get_user_reaction_to_post db u.id pid with
  | none =>
    refine ⟨⟨u.id, pid, some ReactionType.like⟩, ?_, rfl⟩
    rw [send_like_snd_fresh db u pid post hpost hr, add_like_to_post_eq]
    rw [get_user_reaction_to_post_def] at hr ⊢
    show ((db.reactions ++ [(⟨u.id, pid, none⟩ : ReactionRow)]).map _).find? _ = _
    rw [reactions_map_append_fresh db.reactions u.id pid _ hr]
    rw [find?_append_of_none _ _ _ hr]
    simp [List.find?]
  | some r =>
    refine ⟨{ r with reaction_type := some ReactionType.like }, ?_, rfl⟩
    rw [send_like_snd_found db u pid post r hpost hr, add_like_to_post_eq]
    rw [get_user_reaction_to_post_def] at hr ⊢
    exact find?_reactions_update db.reactions u.id pid r _ hr rfl rfl

/-- Auxiliary: after `send_dislike` on an existing post the user's reaction
row reads `dislike` and keeps its key. -/
theorem get_user_reaction_send_dislike (db : DB) (u : UserRow) (pid : String) (post : PostRow)
    (hpost : get_post_by_id db pid = some post) :
    ∃ r', get_user_reaction_to_post (send_dislike db u pid).2 u.id pid = some r' ∧
      r'.reaction_type = some ReactionType.dislike := by
  cases hr : get_user_reaction_to_post db u.id pid with
  | none =>
    refine ⟨⟨u.id, pid, some ReactionType.dislike⟩, ?_, rfl⟩
    rw [send_dislike_snd_fresh db u pid post hpost hr, add_dislike_to_post_eq]
    rw [get_user_reaction_to_post_def] at hr ⊢
    show ((db.reactions ++ [(⟨u.id, pid, none⟩ : ReactionRow)]).map _).find? _ = _
    rw [reactions_map_append_fresh db.reactions u.id pid _ hr]
    rw [find?_append_of_none _ _ _ hr]
    simp [List.find?]
  | some r =>
    refine ⟨{ r with reaction_type := some ReactionType.dislike }, ?_, rfl⟩
    rw [send_dislike_snd_found db u pid post r hpost hr, add_dislike_to_post_eq]
    rw [get_user_reaction_to_post_def] at hr ⊢
    exact find?_reactions_update db.reactions u.id pid r _ hr rfl rfl

/-- Auxiliary: after `send_like` on an existing post the user's reaction state
is `like`. -/
theorem reaction_state_send_like (db : DB) (u : UserRow) (pid : String) (post : PostRow)
    (hpost : get_post_by_id db pid = some post) :
    reaction_state (send_like db u pid).2 u.id pid = some ReactionType.like := by
  obtain ⟨r', hr', ht⟩ := get_user_reaction_send_like db u pid post hpost
  simp [reaction_state, hr', ht]

/-- Auxiliary: after `send_dislike` on an existing post the user's reaction
state is `dislike`. -/
theorem reaction_state_send_dislike (db : DB) (u : UserRow) (pid : String) (post : PostRow)
    (hpost : get_post_by_id db pid = some post) :
    reaction_state (send_dislike db u pid).2 u.id pid = some ReactionType.dislike := by
  obtain ⟨r', hr', ht⟩ := get_user_reaction_send_dislike db u pid post hpost
  simp [reaction_state, hr', ht]

end SendLikeState

section ReactionCounting

/-- Auxiliary: splitting a counted list at a distinguished element. -/
theorem countP_decomp {α : Type} (l₁ l₂ : List α) (x : α) (p : α → Bool) :
    (l₁ ++ x :: l₂).countP p = l₁.countP p + l₂.countP p + (if p x then 1 else 0) := by
  rw [List.countP_append, List.countP_cons, Nat.add_assoc]

/-- Auxiliary: splitting a counted list at a matching element. -/
theorem countP_decomp_pos {α : Type} (l₁ l₂ : List α) (x : α) (p : α → Bool)
    (hx : p x = true) :
    (l₁ ++ x :: l₂).countP p = l₁.countP p + l₂.countP p + 1 := by
  rw [countP_decomp, hx]
  rfl

/-- Auxiliary: splitting a counted list at a non-matching element. -/
theorem countP_decomp_neg {α : Type} (l₁ l₂ : List α) (x : α) (p : α → Bool)
    (hx : p x = false) :
    (l₁ ++ x :: l₂).countP p = l₁.countP p + l₂.countP p := by
  rw [countP_decomp, hx]
  rfl

/-- Auxiliary: writing a reaction type back to the unique row with the looked
up key rewrites exactly that row, and key uniqueness is preserved. -/
theorem reactions_after_set (rs : List ReactionRow) (user_id : Nat) (post_id : String)
    (r : ReactionRow) (t : ReactionType)
    (huniq : rs.Pairwise (fun a b => ¬(a.user_id = b.user_id ∧ a.post_id = b.post_id)))
    (hfind : rs.find? (fun x => x.post_id == post_id && x.user_id == user_id) = some r) :
    ∃ l₁ l₂, rs = l₁ ++ r :: l₂ ∧
      rs.map (fun x => if x.user_id == r.user_id && x.post_id == r.post_id then
          { r with reaction_type := some t } else x) =
        l₁ ++ ({ r with reaction_type := some t } : ReactionRow) :: l₂ ∧
      (l₁ ++ ({ r with reaction_type := some t } : ReactionRow) :: l₂).Pairwise
        (fun a b => ¬(a.user_id = b.user_id ∧ a.post_id = b.post_id)) := by
  obtain ⟨l₁, l₂, heq, hl₁⟩ := find?_some_decomp rs _ r hfind
  subst heq
  have hk := List.find?_some hfind
  simp only [Bool.and_eq_true, beq_iff_eq] at hk
  rw [List.pairwise_append] at huniq
  obtain ⟨hp₁, hp₂, hp₁₂⟩ := huniq
  rw [List.pairwise_cons] at hp₂
  obtain ⟨hr₂, hp₂'⟩ := hp₂
  have hnm₁ : ∀ a ∈ l₁, (a.user_id == r.user_id && a.post_id == r.post_id) = false := by
    intro a ha
    rw [hk.1, hk.2, Bool.and_comm]
    exact hl₁ a ha
  have hnm₂ : ∀ a ∈ l₂, (a.user_id == r.user_id && a.post_id == r.post_id) = false := by
    intro a ha
    have hra := hr₂ a ha
    by_cases h1 : (a.user_id == r.user_id) = true
    · by_cases h2 : (a.post_id == r.post_id) = true
      · have h1' : a.user_id = r.user_id := by simpa using h1
        have h2' : a.post_id = r.post_id := by simpa using h2
        exact absurd ⟨h1'.symm, h2'.symm⟩ hra
      · have h2' : (a.post_id == r.post_id) = false := by simpa using h2
        simp [h2']
    · have h1' : (a.user_id == r.user_id) = false := by simpa using h1
      simp [h1']
  have hself : (r.user_id == r.user_id && r.post_id == r.post_id) = true := by simp
  refine ⟨l₁, l₂, rfl, ?_, ?_⟩
  · rw [List.map_append, map_eq_self_of_no_match l₁ _ _ hnm₁]
    simp only [List.map_cons]
    rw [map_eq_self_of_no_match l₂ _ _ hnm₂]
    simp [hself]
  · rw [List.pairwise_append]
    refine ⟨hp₁, ?_, ?_⟩
    · rw [List.pairwise_cons]
      exact ⟨fun b hb => hr₂ b hb, hp₂'⟩
    · intro a ha b hb
      rcases List.mem_cons.mp hb with rfl | hb'
      · exact hp₁₂ a ha r (List.mem_cons_self _ _)
      · exact hp₁₂ a ha b (List.mem_cons_of_mem _ hb')

end ReactionCounting

/-- C1: for every user and post, the like/dislike toggle follows the
three-state machine: from state `none`, like increments `likesCount` and
dislike increments `dislikesCount`; from state `like`, a repeated like is a
counter no-op and a dislike moves one unit from likes to dislikes; from state
`dislike`, a repeated dislike is a no-op and a like moves one unit from
dislikes to likes; afterwards the state is the requested type.  An absent
reaction row reads as state `none` (`reaction_state` maps an absent row and a
NULL row to the same state, and the transition depends only on that state). -/
theorem reaction_toggle_state_machine
    (db : DB) (current_user : UserRow) (post_id : String) (post : PostRow)
    (hpost : get_post_by_id db post_id = some post) :
    get_post_by_id (send_like db current_user post_id).2 post_id =
      some { post with
        likes_count := post.likes_count +
          (if reaction_state db current_user.id post_id = some ReactionType.like then 0 else 1),
        dislikes_count := post.dislikes_count -
          (if reaction_state db current_user.id post_id = some ReactionType.dislike then 1
           else 0) } ∧
    reaction_state (send_like db current_user post_id).2 current_user.id post_id =
      some ReactionType.like ∧
    get_post_by_id (send_dislike db current_user post_id).2 post_id =
      some { post with
        dislikes_count := post.dislikes_count +
          (if reaction_state db current_user.id post_id = some ReactionType.dislike then 0
           else 1),
        likes_count := post.likes_count -
          (if reaction_state db current_user.id post_id = some ReactionType.like then 1
           else 0) } ∧
    reaction_state (send_dislike db current_user post_id).2 current_user.id post_id =
      some ReactionType.dislike := by
  refine ⟨?_, reaction_state_send_like db current_user post_id post hpost, ?_,
    reaction_state_send_dislike db current_user post_id post hpost⟩
  · rw [get_post_by_id_send_like db current_user post_id post hpost]
    cases hs : reaction_state db current_user.id post_id with
    | none => simp [like_counter_update]
    | some t => cases t <;> simp [like_counter_update]
  · rw [get_post_by_id_send_dislike db current_user post_id post hpost]
    cases hs : reaction_state db current_user.id post_id with
    | none => simp [dislike_counter_update]
    | some t => cases t <;> simp [dislike_counter_update]

/-- Witness for C1: in `exToggleDB` user 1 is in state `dislike` on post `p`
with counters (3, 4); a like moves them to (4, 3) and sets state `like`, a
dislike is a counter no-op. -/
theorem reaction_toggle_state_machine_witness :
    get_post_by_id (send_like exToggleDB ⟨1, "alice", true⟩ "p").2 "p" =
      some ⟨"p", "hi", 1, 4, 3⟩ ∧
    reaction_state (send_like exToggleDB ⟨1, "alice", true⟩ "p").2 1 "p" =
      some ReactionType.like ∧
    get_post_by_id (send_dislike exToggleDB ⟨1, "alice", true⟩ "p").2 "p" =
      some ⟨"p", "hi", 1, 3, 4⟩ ∧
    reaction_state (send_dislike exToggleDB ⟨1, "alice", true⟩ "p").2 1 "p" =
      some ReactionType.dislike := by
  have h := reaction_toggle_state_machine exToggleDB ⟨1, "alice", true⟩ "p" ⟨"p", "hi", 1, 3, 4⟩
    (by decide)
  rw [show reaction_state exToggleDB (1 : Nat) "p" = some ReactionType.dislike by decide] at h
  simpa using h

section ResponseShape

/-- Auxiliary: a 200 response of `send_like` carries exactly the counters of
the post row it stored. -/
theorem send_like_fst_ok (db : DB) (u : UserRow) (pid : String) (resp : PostResponse)
    (h : (send_like db u pid).1 = PostResult.ok resp) :
    ∃ post, get_post_by_id db pid = some post ∧
      resp.likesCount = (like_counter_update post (reaction_state db u.id pid)).likes_count ∧
      resp.dislikesCount =
        (like_counter_update post (reaction_state db u.id pid)).dislikes_count := by
  cases hpost : get_post_by_id db pid with
  | none =>
    cases hr : get_user_reaction_to_post db u.id pid <;> simp [send_like, hpost, hr] at h
  | some post =>
    refine ⟨post, rfl, ?_⟩
    cases hr : get_user_reaction_to_post db u.id pid with
    | none =>
      have hs : reaction_state db u.id pid = none := by simp [reaction_state, hr]
      rw [hs]
      simp only [send_like, hpost, hr] at h
      split at h
      · exact absurd h (by simp)
      · injection h with h
        subst h
        exact ⟨rfl, rfl⟩
    | some r =>
      have hs : reaction_state db u.id pid = r.reaction_type := by simp [reaction_state, hr]
      rw [hs]
      simp only [send_like, hpost, hr] at h
      split at h
      · exact absurd h (by simp)
      · injection h with h
        subst h
        exact ⟨rfl, rfl⟩

/-- Auxiliary: a 200 response of `send_dislike` carries exactly the counters
of the post row it stored. -/
theorem send_dislike_fst_ok (db : DB) (u : UserRow) (pid : String) (resp : PostResponse)
    (h : (send_dislike db u pid).1 = PostResult.ok resp) :
    ∃ post, get_post_by_id db pid = some post ∧
      resp.likesCount = (dislike_counter_update post (reaction_state db u.id pid)).likes_count ∧
      resp.dislikesCount =
        (dislike_counter_update post (reaction_state db u.id pid)).dislikes_count := by
  cases hpost : get_post_by_id db pid with
  | none =>
    cases hr : get_user_reaction_to_post db u.id pid <;> simp [send_dislike, hpost, hr] at h
  | some post =>
    refine ⟨post, rfl, ?_⟩
    cases hr : get_user_reaction_to_post db u.id pid with
    | none =>
      have hs : reaction_state db u.id pid = none := by simp [reaction_state, hr]
      rw [hs]
      simp only [send_dislike, hpost, hr] at h
      split at h
      · exact absurd h (by simp)
      · injection h with h
        subst h
        exact ⟨rfl, rfl⟩
    | some r =>
      have hs : reaction_state db u.id pid = r.reaction_type := by simp [reaction_state, hr]
      rw [hs]
      simp only [send_dislike, hpost, hr] at h
      split at h
      · exact absurd h (by simp)
      · injection h with h
        subst h
        exact ⟨rfl, rfl⟩

end ResponseShape

/-- C9: token round trip — for every subject and every positive TTL, decoding
a token immediately after issuing it under the same secret and algorithm
succeeds and returns the subject. -/
theorem token_round_trip (secret alg : String) (config_delta : Int) (sub : String)
    (t now : Int) (ht : 0 < t) :
    (decode_access_token secret alg
      (create_access_token secret alg config_delta sub (some t) now) now).map
        (fun p => p.sub) = some sub := by
  have hne : (t == 0) = false := beq_eq_false_iff_ne.mpr ht.ne'
  simp [create_access_token, decode_access_token, hne, ht]

/-- Witness for C9 at the spec's end-to-end scenario: secret `shh`, algorithm
`HS256`, subject `alice`, TTL one hour, decoded at issuance time. -/
theorem token_round_trip_witness :
    (decode_access_token "shh" "HS256"
      (create_access_token "shh" "HS256" 43200 "alice" (some 3600) 0) 0).map
        (fun p => p.sub) = some "alice" :=
  token_round_trip "shh" "HS256" 43200 "alice" 3600 0 (by decide)

/-- C10: the post-list endpoints populate the response `dislikesCount` field
from the stored `likes_count` (the `get_posts_list` mapping), whereas the
single-post endpoint and the like/dislike endpoints report the stored
`dislikes_count`; hence the feed and the single-post view disagree on any
post whose stored counters differ. -/
theorem feed_dislikes_count_mismatch :
    (∀ (db : DB) (current_user : UserRow) (offset limit : Nat),
      send_my_posts db current_user offset limit =
        (get_all_user_posts_for_pagination db current_user.id offset limit).map
          (fun p => ⟨p.id, p.content, current_user.login, p.likes_count, p.likes_count⟩)) ∧
    (∀ (db : DB) (current_user post_author : UserRow) (login : String) (offset limit : Nat),
      get_user_by_login db login = some post_author →
      send_user_posts_by_login db current_user login offset limit = FeedResult.httpError 404 ∨
      send_user_posts_by_login db current_user login offset limit =
        FeedResult.ok ((get_all_user_posts_for_pagination db post_author.id offset limit).map
          (fun p => ⟨p.id, p.content, login, p.likes_count, p.likes_count⟩))) ∧
    (∀ (db : DB) (current_user : UserRow) (post_id : String) (resp : PostResponse),
      send_post db current_user post_id = PostResult.ok resp →
      ∃ post post_author, get_post_by_id db post_id = some post ∧
        get_user_by_id db post.author = some post_author ∧
        resp = ⟨post.id, post.content, post_author.login, post.likes_count,
          post.dislikes_count⟩) ∧
    (∀ (db : DB) (current_user : UserRow) (post_id : String) (resp : PostResponse),
      (send_like db current_user post_id).1 = PostResult.ok resp →
      ∃ post', get_post_by_id (send_like db current_user post_id).2 post_id = some post' ∧
        resp.likesCount = post'.likes_count ∧ resp.dislikesCount = post'.dislikes_count) ∧
    (∀ (db : DB) (current_user : UserRow) (post_id : String) (resp : PostResponse),
      (send_dislike db current_user post_id).1 = PostResult.ok resp →
      ∃ post', get_post_by_id (send_dislike db current_user post_id).2 post_id = some post' ∧
        resp.likesCount = post'.likes_count ∧ resp.dislikesCount = post'.dislikes_count) := by
  refine ⟨fun db cu offset limit => rfl, ?_, ?_, ?_, ?_⟩
  · intro db cu pa login offset limit h
    simp only [send_user_posts_by_login, h]
    by_cases h1 : (cu.id == pa.id) = true
    · right
      rw [if_pos h1]
      rfl
    · rw [if_neg h1]
      by_cases h2 : pa.is_public = true
      · right
        rw [if_pos h2]
        rfl
      · rw [if_neg h2]
        by_cases h3 :
            (((get_user_all_friends db pa.id).map (fun u => u.id)).contains cu.id) = true
        · right
          rw [if_pos h3]
          rfl
        · left
          rw [if_neg h3]
  · intro db cu pid resp h
    unfold send_post at h
    cases hpost : get_post_by_id db pid with
    | none => simp only [hpost] at h; exact absurd h (by simp)
    | some post =>
      simp only [hpost] at h
      cases hauthor : get_user_by_id db post.author with
      | none => simp only [hauthor] at h; exact absurd h (by simp)
      | some pa =>
        simp only [hauthor] at h
        refine ⟨post, pa, rfl, hauthor, ?_⟩
        split at h
        · injection h with h
          exact h.symm
        · split at h
          · injection h with h
            exact h.symm
          · split at h
            · injection h with h
              exact h.symm
            · exact absurd h (by simp)
  · intro db cu pid resp h
    obtain ⟨post, hpost, hl, hd⟩ := send_like_fst_ok db cu pid resp h
    exact ⟨like_counter_update post (reaction_state db cu.id pid),
      get_post_by_id_send_like db cu pid post hpost, hl, hd⟩
  · intro db cu pid resp h
    obtain ⟨post, hpost, hl, hd⟩ := send_dislike_fst_ok db cu pid resp h
    exact ⟨dislike_counter_update post (reaction_state db cu.id pid),
      get_post_by_id_send_dislike db cu pid post hpost, hl, hd⟩

/-- Witness for C10: in `exFeedDB` the stored counters of post `p` are
(7, 2); the feed endpoint reports `dislikesCount` 7 while the single-post
endpoint reports 2. -/
theorem feed_dislikes_count_mismatch_witness :
    send_my_posts exFeedDB ⟨1, "alice", true⟩ 0 5 =
      (get_all_user_posts_for_pagination exFeedDB (⟨1, "alice", true⟩ : UserRow).id 0 5).map
        (fun p => ⟨p.id, p.content, "alice", p.likes_count, p.likes_count⟩) ∧
    (∃ post post_author, get_post_by_id exFeedDB "p" = some post ∧
      get_user_by_id exFeedDB post.author = some post_author ∧
      (⟨"p", "hi", "alice", 7, 2⟩ : PostResponse) =
        ⟨post.id, post.content, post_author.login, post.likes_count, post.dislikes_count⟩) :=
  ⟨feed_dislikes_count_mismatch.1 exFeedDB ⟨1, "alice", true⟩ 0 5,
   feed_dislikes_count_mismatch.2.2.1 exFeedDB ⟨1, "alice", true⟩ "p"
     ⟨"p", "hi", "alice", 7, 2⟩ (by decide)⟩

/-- C4 (amended): for a private author T and a requester R ≠ T, read access
to T's post and post feed is granted exactly when the directed edge (T, R) —
the author's outgoing edge toward the requester — exists; the requester's own
edge (R, T) plays no role (see the counterexample for the original claim). -/
theorem post_access_iff_author_edge
    (db : DB) (current_user post_author : UserRow) (post_id : String) (post : PostRow)
    (offset limit : Nat)
    (hpost : get_post_by_id db post_id = some post)
    (hauthor : get_user_by_id db post.author = some post_author)
    (hlogin : get_user_by_login db post_author.login = some post_author)
    (hpriv : post_author.is_public = false)
    (hne : current_user.id ≠ post_author.id)
    (hmem : current_user ∈ db.users) :
    ((∃ resp, send_post db current_user post_id = PostResult.ok resp) ↔
      get_user_friend db post_author.id current_user.id ≠ none) ∧
    ((send_post db current_user post_id = PostResult.httpError 404) ↔
      get_user_friend db post_author.id current_user.id = none) ∧
    ((∃ resps, send_user_posts_by_login db current_user post_author.login offset limit =
        FeedResult.ok resps) ↔
      get_user_friend db post_author.id current_user.id ≠ none) ∧
    ((send_user_posts_by_login db current_user post_author.login offset limit =
        FeedResult.httpError 404) ↔
      get_user_friend db post_author.id current_user.id = none) := by
  have hedge := contains_friends_iff_edge db post_author.id current_user hmem
  have hne' : (current_user.id == post_author.id) = false := by
    simp [hne]
  by_cases hc :
      (((get_user_all_friends db post_author.id).map (fun x => x.id)).contains current_user.id)
        = true
  · have he : get_user_friend db post_author.id current_user.id ≠ none := hedge.mp hc
    have h1 : send_post db current_user post_id =
        PostResult.ok ⟨post.id, post.content, post_author.login, post.likes_count,
          post.dislikes_count⟩ := by
      simp only [send_post, hpost, hauthor]
      rw [if_neg (by simp [hne']), if_neg (by simp [hpriv]), if_pos hc]
    have h2 : send_user_posts_by_login db current_user post_author.login offset limit =
        FeedResult.ok (get_posts_list
          (get_all_user_posts_for_pagination db post_author.id offset limit)
          post_author.login) := by
      simp only [send_user_posts_by_login, hlogin]
      rw [if_neg (by simp [hne']), if_neg (by simp [hpriv]), if_pos hc]
    refine ⟨⟨fun _ => he, fun _ => ⟨_, h1⟩⟩, ⟨?_, fun habs => absurd habs he⟩,
      ⟨fun _ => he, fun _ => ⟨_, h2⟩⟩, ⟨?_, fun habs => absurd habs he⟩⟩
    · intro habs
      rw [h1] at habs
      exact absurd habs (by simp)
    · intro habs
      rw [h2] at habs
      exact absurd habs (by simp)
  · have he : get_user_friend db post_author.id current_user.id = none := by
      by_contra hne2
      exact hc (hedge.mpr hne2)
    have h1 : send_post db current_user post_id = PostResult.httpError 404 := by
      simp only [send_post, hpost, hauthor]
      rw [if_neg (by simp [hne']), if_neg (by simp [hpriv]), if_neg hc]
    have h2 : send_user_posts_by_login db current_user post_author.login offset limit =
        FeedResult.httpError 404 := by
      simp only [send_user_posts_by_login, hlogin]
      rw [if_neg (by simp [hne']), if_neg (by simp [hpriv]), if_neg hc]
    refine ⟨⟨?_, fun habs => absurd he habs⟩, ⟨fun _ => he, fun _ => h1⟩,
      ⟨?_, fun habs => absurd he habs⟩, ⟨fun _ => he, fun _ => h2⟩⟩
    · rintro ⟨resp, habs⟩
      rw [h1] at habs
      exact absurd habs (by simp)
    · rintro ⟨resps, habs⟩
      rw [h2] at habs
      exact absurd habs (by simp)

/-- Witness for the amended C4 at `exAuthorEdgeDB`: the edge 2 → 1 exists, so
requester 1 can read private user 2's post. -/
theorem post_access_iff_author_edge_witness :
    (∃ resp, send_post exAuthorEdgeDB ⟨1, "alice", false⟩ "p" = PostResult.ok resp) ↔
      get_user_friend exAuthorEdgeDB (2 : Nat) (1 : Nat) ≠ none :=
  (post_access_iff_author_edge exAuthorEdgeDB ⟨1, "alice", false⟩ ⟨2, "bob", false⟩ "p"
    ⟨"p", "hi", 2, 0, 0⟩ 0 5 (by decide) (by decide) (by decide) rfl (by decide)
    (by decide)).1

/-- C5 (amended): `GET /api/profiles/{login}` reports HTTP 403 (not 404) both
when no user with the login exists and when the user exists but is private,
is not the requester, and the requester holds no friend edge to them — one
uniform status, so the two cases stay indistinguishable to the caller. -/
theorem profile_absent_and_denied_uniform_403
    (db : DB) (current_user : UserRow) (login : String)
    (hcur : current_user ∈ db.users)
    (hlogins : loginsUnique db)
    (hcase : (∀ u ∈ db.users, u.login ≠ login) ∨
      (∃ u, get_user_by_login db login = some u ∧ u.is_public = false ∧
        current_user.login ≠ login ∧ get_user_friend db current_user.id u.id = none)) :
    send_profile_by_login db current_user login = ProfileResult.httpError 403 := by
  rcases hcase with habs | ⟨u, hufind, hupriv, hself, hedge⟩
  · have hself : current_user.login ≠ login := habs current_user hcur
    have hfl : ¬(((get_user_all_friends db current_user.id).map (fun x => x.login)).contains
        login = true) := by
      intro hcon
      simp only [List.contains, List.elem_iff, List.mem_map] at hcon
      obtain ⟨v, hv, hvl⟩ := hcon
      exact habs v (List.mem_filter.mp hv).1 hvl
    have hpub : get_public_user_by_login db login = none := by
      unfold get_public_user_by_login
      by_cases hempty : (login == "") = true
      · rw [if_pos hempty]
      · rw [if_neg hempty]
        apply List.find?_eq_none.mpr
        intro v hv hvp
        simp only [Bool.and_eq_true, beq_iff_eq] at hvp
        exact habs v hv hvp.2
    simp only [send_profile_by_login]
    rw [if_neg (by simp [hself]), if_neg hfl, hpub]
  · have hlempty : (login == "") = false := by
      by_contra hx
      have hx' : (login == "") = true := by simpa using hx
      rw [get_user_by_login, if_pos hx'] at hufind
      exact absurd hufind (by simp)
    have hufind' : db.users.find? (fun x => x.login == login) = some u := by
      rw [get_user_by_login, if_neg (by simp [hlempty])] at hufind
      exact hufind
    have humem : u ∈ db.users := List.mem_of_find?_eq_some hufind'
    have hulogin : u.login = login := by simpa using List.find?_some hufind'
    have hfl : ¬(((get_user_all_friends db current_user.id).map (fun x => x.login)).contains
        login = true) := by
      intro hcon
      simp only [List.contains, List.elem_iff, List.mem_map] at hcon
      obtain ⟨v, hv, hvl⟩ := hcon
      have hvu : v ∈ db.users := (List.mem_filter.mp hv).1
      have hveq : v = u := login_inj db hlogins v u hvu humem (hvl.trans hulogin.symm)
      have huf : u ∈ get_user_all_friends db current_user.id := hveq ▸ hv
      have hcontains :
          (((get_user_all_friends db current_user.id).map (fun x => x.id)).contains u.id)
            = true := by
        simp only [List.contains, List.elem_iff, List.mem_map]
        exact ⟨u, huf, rfl⟩
      exact (contains_friends_iff_edge db current_user.id u humem).mp hcontains hedge
    have hpub : get_public_user_by_login db login = none := by
      unfold get_public_user_by_login
      rw [if_neg (by simp [hlempty])]
      apply List.find?_eq_none.mpr
      intro v hv hvp
      simp only [Bool.and_eq_true, beq_iff_eq] at hvp
      have hveq : v = u := login_inj db hlogins v u hv humem (hvp.2.trans hulogin.symm)
      have hpubv : u.is_public = true := hveq ▸ hvp.1
      rw [hupriv] at hpubv
      exact absurd hpubv (by simp)
    simp only [send_profile_by_login]
    rw [if_neg (by simp [hself]), if_neg hfl, hpub]

/-- Witness for the amended C5: in `exProfileDB` no user has login `ghost`,
and the handler answers 403. -/
theorem profile_absent_and_denied_uniform_403_witness :
    send_profile_by_login exProfileDB ⟨1, "alice", true⟩ "ghost" =
      ProfileResult.httpError 403 :=
  profile_absent_and_denied_uniform_403 exProfileDB ⟨1, "alice", true⟩ "ghost" (by decide)
    (by unfold loginsUnique; decide) (Or.inl (by decide))

/-- C8: friend-add is idempotent — for a requester and an existing target
with a different login, the first call answers ok, the repeated call answers
ok without changing the database, afterwards exactly one edge
(requester, target) exists, and the friend-list length is unaffected by the
repeat call; adding oneself answers ok and changes no state. -/
theorem friend_add_idempotent
    (db : DB) (current_user friend : UserRow) (login : String) (now1 now2 : Nat)
    (hkeys : friendshipKeysUnique db)
    (hfriend : get_user_by_login db login = some friend)
    (hself_login : current_user.login ≠ login) :
    (add_new_friend db current_user login now1).1 = StatusResult.ok ∧
    (add_new_friend (add_new_friend db current_user login now1).2 current_user login now2).1 =
      StatusResult.ok ∧
    (add_new_friend (add_new_friend db current_user login now1).2 current_user login now2).2 =
      (add_new_friend db current_user login now1).2 ∧
    ((add_new_friend db current_user login now1).2.friendships.countP
      (fun f => f.user_id == current_user.id && f.friend_id == friend.id)) = 1 ∧
    (get_user_all_friends
      (add_new_friend (add_new_friend db current_user login now1).2 current_user login
        now2).2 current_user.id).length =
      (get_user_all_friends (add_new_friend db current_user login now1).2
        current_user.id).length ∧
    (∀ (A : UserRow) (now : Nat), add_new_friend db A A.login now = (StatusResult.ok, db)) := by
  have hok_self : ∀ (A : UserRow) (now : Nat), add_new_friend db A A.login now =
      (StatusResult.ok, db) := by
    intro A now
    simp [add_new_friend]
  have hl : (current_user.login == login) = false := by simp [hself_login]
  have hlempty : (login == "") = false := by
    by_contra hx
    have hx' : (login == "") = true := by simpa using hx
    rw [get_user_by_login, if_pos hx'] at hfriend
    exact absurd hfriend (by simp)
  have hfind : db.users.find? (fun x => x.login == login) = some friend := by
    rw [get_user_by_login, if_neg (by simp [hlempty])] at hfriend
    exact hfriend
  have hmemB : friend ∈ db.users := List.mem_of_find?_eq_some hfind
  have hiff := contains_friends_iff_edge db current_user.id friend hmemB
  by_cases hedge : get_user_friend db current_user.id friend.id = none
  · have hc : ¬((((get_user_all_friends db current_user.id).map (fun x => x.id)).contains
        friend.id) = true) := fun hcon => (hiff.mp hcon) hedge
    have h1 : add_new_friend db current_user login now1 =
        (StatusResult.ok,
          { db with friendships :=
              db.friendships ++ [⟨current_user.id, friend.id, now1⟩] }) := by
      simp only [add_new_friend]
      rw [if_neg (by simp [hl])]
      simp only [hfriend]
      rw [if_neg hc]
      rfl
    have hfriend1 : get_user_by_login
        ({ db with friendships := db.friendships ++ [⟨current_user.id, friend.id, now1⟩] } : DB)
        login = some friend := hfriend
    have hmem_f1 : friend.id ∈ friend_ids_of
        ({ db with friendships := db.friendships ++ [⟨current_user.id, friend.id, now1⟩] } : DB)
        current_user.id :=
      by
        apply (friend_ids_mem_iff
          ({ db with friendships :=
              db.friendships ++ [⟨current_user.id, friend.id, now1⟩] } : DB)
          current_user.id friend.id).mpr
        refine ⟨⟨current_user.id, friend.id, now1⟩, ?_, rfl, rfl⟩
        simp
    have hcon1 : (((get_user_all_friends
        ({ db with friendships := db.friendships ++ [⟨current_user.id, friend.id, now1⟩] } : DB)
        current_user.id).map (fun x => x.id)).contains friend.id) = true := by
      simp only [List.contains, List.elem_iff, List.mem_map]
      refine ⟨friend, ?_, rfl⟩
      apply List.mem_filter.mpr
      refine ⟨hmemB, ?_⟩
      simp [List.contains, List.elem_iff, hmem_f1]
    have h2 : add_new_friend
        ({ db with friendships := db.friendships ++ [⟨current_user.id, friend.id, now1⟩] } : DB)
        current_user login now2 =
        (StatusResult.ok,
          ({ db with friendships :=
              db.friendships ++ [⟨current_user.id, friend.id, now1⟩] } : DB)) := by
      simp only [add_new_friend]
      rw [if_neg (by simp [hl])]
      simp only [hfriend1]
      rw [if_pos hcon1]
    have hcount : ({ db with friendships :=
        db.friendships ++ [⟨current_user.id, friend.id, now1⟩] } : DB).friendships.countP
        (fun f => f.user_id == current_user.id && f.friend_id == friend.id) = 1 := by
      show (db.friendships ++ [(⟨current_user.id, friend.id, now1⟩ : FriendshipRow)]).countP
        (fun f => f.user_id == current_user.id && f.friend_id == friend.id) = 1
      rw [List.countP_append, countP_eq_zero_of_find?_none _ _ hedge]
      simp [List.countP_cons]
    refine ⟨by rw [h1], ?_, ?_, ?_, ?_, hok_self⟩
    · rw [h1]
      exact congrArg Prod.fst h2
    · rw [h1]
      exact congrArg Prod.snd h2
    · rw [h1]
      exact hcount
    · rw [h1]
      exact congrArg (fun d => (get_user_all_friends d current_user.id).length)
        (congrArg Prod.snd h2)
  · have hc : (((get_user_all_friends db current_user.id).map (fun x => x.id)).contains
        friend.id) = true := hiff.mpr hedge
    have h1 : ∀ now, add_new_friend db current_user login now = (StatusResult.ok, db) := by
      intro now
      simp only [add_new_friend]
      rw [if_neg (by simp [hl])]
      simp only [hfriend]
      rw [if_pos hc]
    obtain ⟨f, hf⟩ := Option.ne_none_iff_exists'.mp hedge
    have hcount : db.friendships.countP
        (fun f => f.user_id == current_user.id && f.friend_id == friend.id) = 1 := by
      refine countP_eq_one_of_unique_key db.friendships _
        (fun a b => ¬(a.user_id = b.user_id ∧ a.friend_id = b.friend_id)) hkeys ?_ f hf
      intro b c hb hc2 hR
      simp only [Bool.and_eq_true, beq_iff_eq] at hb hc2
      exact hR ⟨hb.1.trans hc2.1.symm, hb.2.trans hc2.2.symm⟩
    refine ⟨by rw [h1 now1], ?_, ?_, ?_, ?_, hok_self⟩
    · rw [h1 now1]
      exact congrArg Prod.fst (h1 now2)
    · rw [h1 now1]
      exact congrArg Prod.snd (h1 now2)
    · rw [h1 now1]
      exact hcount
    · rw [h1 now1]
      exact congrArg (fun d => (get_user_all_friends d current_user.id).length)
        (congrArg Prod.snd (h1 now2))

/-- Witness for C8: in `exAddFriendDB` user 1 adds user 2 twice; exactly one
edge (1, 2) results. -/
theorem friend_add_idempotent_witness :
    ((add_new_friend exAddFriendDB ⟨1, "alice", true⟩ "bob" 5).2.friendships.countP
      (fun f => f.user_id == (⟨1, "alice", true⟩ : UserRow).id &&
        f.friend_id == (⟨2, "bob", true⟩ : UserRow).id)) = 1 :=
  (friend_add_idempotent exAddFriendDB ⟨1, "alice", true⟩ ⟨2, "bob", true⟩ "bob" 5 9
    (by unfold friendshipKeysUnique; decide) (by decide) (by decide)).2.2.2.1

/-- C2: the toggle is not atomic — `send_like` commits the new reaction row
in `add_new_user_reaction` and only later writes the counters.  At the
concrete failing input (user 2 likes the absent post `q`) the handler fails
with an unhandled Python error after the first commit, leaving the reaction
row behind with no counter write: exactly the partial state the claim says
can never be observed. -/
theorem reaction_toggle_partial_commit :
    (send_like exNoPostDB ⟨2, "bob", true⟩ "q").1 = PostResult.pythonError ∧
    (send_like exNoPostDB ⟨2, "bob", true⟩ "q").2.reactions =
      [(⟨2, "q", none⟩ : ReactionRow)] ∧
    exNoPostDB.reactions = [] ∧
    (send_like exNoPostDB ⟨2, "bob", true⟩ "q").2.posts = exNoPostDB.posts := by
  decide

/-- C6: liking or disliking an absent post does not return HTTP 404 — the
handlers never check the `get_post_by_id` result.  At the concrete input
(user 1, absent post `ghost`) both endpoints create and commit a reaction row
for the absent post and then crash with an unhandled Python error. -/
theorem like_dislike_absent_post_no_404 :
    get_post_by_id exAbsentPostDB "ghost" = none ∧
    (send_like exAbsentPostDB ⟨1, "alice", true⟩ "ghost").1 = PostResult.pythonError ∧
    (send_like exAbsentPostDB ⟨1, "alice", true⟩ "ghost").2.reactions =
      [(⟨1, "ghost", none⟩ : ReactionRow)] ∧
    (send_dislike exAbsentPostDB ⟨1, "alice", true⟩ "ghost").1 = PostResult.pythonError ∧
    (send_dislike exAbsentPostDB ⟨1, "alice", true⟩ "ghost").2.reactions =
      [(⟨1, "ghost", none⟩ : ReactionRow)] := by
  decide

/-- C7: the friends listing pairs targets with timestamps positionally from
two independently ordered queries.  In `exFriendsDB` user 1 added "carol"
(id 3) at time 10 and then "bob" (id 2) at time 20; the endpoint returns
"bob" paired with `addedAt` 10 — the timestamp of the edge to "carol" — so
the returned `addedAt` is not the insertion timestamp of the paired target
and the pairs are not the insertion-ordered edge sequence. -/
theorem friends_listing_mispairs_timestamps :
    send_my_friends exFriendsDB ⟨1, "owner", true⟩ 0 5 =
      [(⟨"bob", 10⟩ : FriendResponse), (⟨"carol", 20⟩ : FriendResponse)] ∧
    get_user_friend exFriendsDB 1 2 = some ⟨1, 2, 20⟩ ∧
    get_user_friend exFriendsDB 1 3 = some ⟨1, 3, 10⟩ := by
  decide

/-- Counterexample to C4: with only the requester's outgoing edge 1 → 2
present, access to private user 2's post and feed is denied (HTTP 404), and
with only the author's edge 2 → 1 present, access is granted — the opposite
of the claimed direction. -/
theorem post_access_direction_counterexample :
    get_user_friend exRequesterEdgeDB 1 2 = some ⟨1, 2, 5⟩ ∧
    send_post exRequesterEdgeDB ⟨1, "alice", false⟩ "p" = PostResult.httpError 404 ∧
    send_user_posts_by_login exRequesterEdgeDB ⟨1, "alice", false⟩ "bob" 0 5 =
      FeedResult.httpError 404 ∧
    get_user_friend exAuthorEdgeDB 1 2 = none ∧
    get_user_friend exAuthorEdgeDB 2 1 = some ⟨2, 1, 5⟩ ∧
    send_post exAuthorEdgeDB ⟨1, "alice", false⟩ "p" =
      PostResult.ok ⟨"p", "hi", "bob", 0, 0⟩ ∧
    send_user_posts_by_login exAuthorEdgeDB ⟨1, "alice", false⟩ "bob" 0 5 =
      FeedResult.ok [⟨"p", "hi", "bob", 0, 0⟩] := by
  decide

/-- Counterexample to C5: requesting the profile of an absent login returns
HTTP 403, not the claimed 404. -/
theorem profile_absent_status_counterexample :
    get_user_by_login exProfileDB "ghost" = none ∧
    send_profile_by_login exProfileDB ⟨1, "alice", true⟩ "ghost" =
      ProfileResult.httpError 403 := by
  decide

section ToggleInvariant

/-- Auxiliary: one like toggle on an existing post preserves reaction-key
uniqueness and re-establishes that the stored counters equal the reaction-row
counts. -/
theorem send_like_preserves_counts (db : DB) (u : UserRow) (pid : String) (post : PostRow)
    (huniq : reactionKeysUnique db)
    (hpost : get_post_by_id db pid = some post)
    (hlike : post.likes_count = (likeRowCount db pid : Int))
    (hdis : post.dislikes_count = (dislikeRowCount db pid : Int)) :
    reactionKeysUnique (send_like db u pid).2 ∧
    ∃ post', get_post_by_id (send_like db u pid).2 pid = some post' ∧
      post'.likes_count = (likeRowCount (send_like db u pid).2 pid : Int) ∧
      post'.dislikes_count = (dislikeRowCount (send_like db u pid).2 pid : Int) := by
  cases hr : get_user_reaction_to_post db u.id pid with
  | none =>
    have hs : reaction_state db u.id pid = none := by simp [reaction_state, hr]
    have hreactions : (send_like db u pid).2.reactions =
        db.reactions ++ [(⟨u.id, pid, some ReactionType.like⟩ : ReactionRow)] := by
      rw [send_like_snd_fresh db u pid post hpost hr, add_like_to_post_eq]
      exact reactions_map_append_fresh db.reactions u.id pid _ hr
    have hposts := get_post_by_id_send_like db u pid post hpost
    rw [hs] at hposts
    have hlc : likeRowCount (send_like db u pid).2 pid = likeRowCount db pid + 1 := by
      unfold likeRowCount
      rw [hreactions, List.countP_append]
      simp
    have hdc : dislikeRowCount (send_like db u pid).2 pid = dislikeRowCount db pid := by
      unfold dislikeRowCount
      rw [hreactions, List.countP_append]
      simp
    refine ⟨?_, like_counter_update post none, hposts, ?_, ?_⟩
    · unfold reactionKeysUnique
      rw [hreactions, List.pairwise_append]
      refine ⟨huniq, by simp, ?_⟩
      intro a ha b hb
      have hb' : b = (⟨u.id, pid, some ReactionType.like⟩ : ReactionRow) := by simpa using hb
      subst hb'
      intro hcontra
      have hfa := List.find?_eq_none.mp hr a ha
      simp only [Bool.and_eq_true, beq_iff_eq, not_and] at hfa
      exact hfa (by simpa using hcontra.2) (by simpa using hcontra.1)
    · rw [show (like_counter_update post none).likes_count = post.likes_count + 1 from rfl,
        hlc, hlike]
      push_cast
      ring
    · rw [show (like_counter_update post none).dislikes_count = post.dislikes_count from rfl,
        hdc, hdis]
  | some r =>
    have hs : reaction_state db u.id pid = r.reaction_type := by simp [reaction_state, hr]
    obtain ⟨l₁, l₂, hdecomp, hmap, hpair'⟩ :=
      reactions_after_set db.reactions u.id pid r ReactionType.like huniq hr
    have hreactions : (send_like db u pid).2.reactions =
        l₁ ++ ({ r with reaction_type := some ReactionType.like } : ReactionRow) :: l₂ := by
      rw [send_like_snd_found db u pid post r hpost hr, add_like_to_post_eq]
      exact hmap
    have hposts := get_post_by_id_send_like db u pid post hpost
    rw [hs] at hposts
    have hkey := List.find?_some hr
    simp only [Bool.and_eq_true, beq_iff_eq] at hkey
    have huniq' : reactionKeysUnique (send_like db u pid).2 := by
      unfold reactionKeysUnique
      rw [hreactions]
      exact hpair'
    have hlc_new : likeRowCount (send_like db u pid).2 pid =
        l₁.countP (fun x => x.post_id == pid && x.reaction_type == some ReactionType.like) +
        l₂.countP (fun x => x.post_id == pid && x.reaction_type == some ReactionType.like)
          + 1 := by
      unfold likeRowCount
      rw [hreactions]
      exact countP_decomp_pos _ _ _ _ (by simp [hkey.1])
    have hdc_new : dislikeRowCount (send_like db u pid).2 pid =
        l₁.countP (fun x => x.post_id == pid && x.reaction_type == some ReactionType.dislike) +
        l₂.countP
          (fun x => x.post_id == pid && x.reaction_type == some ReactionType.dislike) := by
      unfold dislikeRowCount
      rw [hreactions]
      exact countP_decomp_neg _ _ _ _ (by simp)
    cases htype : r.reaction_type with
    | none =>
      have hlc_old : likeRowCount db pid =
          l₁.countP (fun x => x.post_id == pid && x.reaction_type == some ReactionType.like) +
          l₂.countP
            (fun x => x.post_id == pid && x.reaction_type == some ReactionType.like) := by
        unfold likeRowCount
        rw [hdecomp]
        exact countP_decomp_neg _ _ _ _ (by simp [htype])
      have hdc_old : dislikeRowCount db pid =
          l₁.countP (fun x => x.post_id == pid && x.reaction_type == some ReactionType.dislike) +
          l₂.countP
            (fun x => x.post_id == pid && x.reaction_type == some ReactionType.dislike) := by
        unfold dislikeRowCount
        rw [hdecomp]
        exact countP_decomp_neg _ _ _ _ (by simp [htype])
      rw [htype] at hposts
      refine ⟨huniq', like_counter_update post none, hposts, ?_, ?_⟩
      · rw [show (like_counter_update post none).likes_count = post.likes_count + 1 from rfl,
          hlc_new, hlike, hlc_old]
        push_cast
        ring
      · rw [show (like_counter_update post none).dislikes_count = post.dislikes_count from rfl,
          hdc_new, hdis, hdc_old]
    | some t =>
      cases t with
      | like =>
        have hlc_old : likeRowCount db pid =
            l₁.countP (fun x => x.post_id == pid && x.reaction_type == some ReactionType.like) +
            l₂.countP (fun x => x.post_id == pid && x.reaction_type == some ReactionType.like)
              + 1 := by
          unfold likeRowCount
          rw [hdecomp]
          exact countP_decomp_pos _ _ _ _ (by simp [hkey.1, htype])
        have hdc_old : dislikeRowCount db pid =
            l₁.countP
              (fun x => x.post_id == pid && x.reaction_type == some ReactionType.dislike) +
            l₂.countP
              (fun x => x.post_id == pid && x.reaction_type == some ReactionType.dislike) := by
          unfold dislikeRowCount
          rw [hdecomp]
          exact countP_decomp_neg _ _ _ _ (by simp [htype])
        rw [htype] at hposts
        refine ⟨huniq', like_counter_update post (some ReactionType.like), hposts, ?_, ?_⟩
        · rw [show (like_counter_update post (some ReactionType.like)).likes_count =
              post.likes_count from rfl, hlc_new, hlike, hlc_old]
        · rw [show (like_counter_update post (some ReactionType.like)).dislikes_count =
              post.dislikes_count from rfl, hdc_new, hdis, hdc_old]
      | dislike =>
        have hlc_old : likeRowCount db pid =
            l₁.countP (fun x => x.post_id == pid && x.reaction_type == some ReactionType.like) +
            l₂.countP
              (fun x => x.post_id == pid && x.reaction_type == some ReactionType.like) := by
          unfold likeRowCount
          rw [hdecomp]
          exact countP_decomp_neg _ _ _ _ (by simp [htype])
        have hdc_old : dislikeRowCount db pid =
            l₁.countP
              (fun x => x.post_id == pid && x.reaction_type == some ReactionType.dislike) +
            l₂.countP
              (fun x => x.post_id == pid && x.reaction_type == some ReactionType.dislike)
              + 1 := by
          unfold dislikeRowCount
          rw [hdecomp]
          exact countP_decomp_pos _ _ _ _ (by simp [hkey.1, htype])
        rw [htype] at hposts
        refine ⟨huniq', like_counter_update post (some ReactionType.dislike), hposts, ?_, ?_⟩
        · rw [show (like_counter_update post (some ReactionType.dislike)).likes_count =
              post.likes_count + 1 from rfl, hlc_new, hlike, hlc_old]
          push_cast
          ring
        · rw [show (like_counter_update post (some ReactionType.dislike)).dislikes_count =
              post.dislikes_count - 1 from rfl, hdc_new, hdis, hdc_old]
          push_cast
          ring

/-- Auxiliary: one dislike toggle on an existing post preserves reaction-key
uniqueness and re-establishes that the stored counters equal the reaction-row
counts. -/
theorem send_dislike_preserves_counts (db : DB) (u : UserRow) (pid : String) (post : PostRow)
    (huniq : reactionKeysUnique db)
    (hpost : get_post_by_id db pid = some post)
    (hlike : post.likes_count = (likeRowCount db pid : Int))
    (hdis : post.dislikes_count = (dislikeRowCount db pid : Int)) :
    reactionKeysUnique (send_dislike db u pid).2 ∧
    ∃ post', get_post_by_id (send_dislike db u pid).2 pid = some post' ∧
      post'.likes_count = (likeRowCount (send_dislike db u pid).2 pid : Int) ∧
      post'.dislikes_count = (dislikeRowCount (send_dislike db u pid).2 pid : Int) := by
  cases hr : get_user_reaction_to_post db u.id pid with
  | none =>
    have hs : reaction_state db u.id pid = none := by simp [reaction_state, hr]
    have hreactions : (send_dislike db u pid).2.reactions =
        db.reactions ++ [(⟨u.id, pid, some ReactionType.dislike⟩ : ReactionRow)] := by
      rw [send_dislike_snd_fresh db u pid post hpost hr, add_dislike_to_post_eq]
      exact reactions_map_append_fresh db.reactions u.id pid _ hr
    have hposts := get_post_by_id_send_dislike db u pid post hpost
    rw [hs] at hposts
    have hdc : dislikeRowCount (send_dislike db u pid).2 pid = dislikeRowCount db pid + 1 := by
      unfold dislikeRowCount
      rw [hreactions, List.countP_append]
      simp
    have hlc : likeRowCount (send_dislike db u pid).2 pid = likeRowCount db pid := by
      unfold likeRowCount
      rw [hreactions, List.countP_append]
      simp
    refine ⟨?_, dislike_counter_update post none, hposts, ?_, ?_⟩
    · unfold reactionKeysUnique
      rw [hreactions, List.pairwise_append]
      refine ⟨huniq, by simp, ?_⟩
      intro a ha b hb
      have hb' : b = (⟨u.id, pid, some ReactionType.dislike⟩ : ReactionRow) := by simpa using hb
      subst hb'
      intro hcontra
      have hfa := List.find?_eq_none.mp hr a ha
      simp only [Bool.and_eq_true, beq_iff_eq, not_and] at hfa
      exact hfa (by simpa using hcontra.2) (by simpa using hcontra.1)
    · rw [show (dislike_counter_update post none).likes_count = post.likes_count from rfl,
        hlc, hlike]
    · rw [show (dislike_counter_update post none).dislikes_count = post.dislikes_count + 1
        from rfl, hdc, hdis]
      push_cast
      ring
  | some r =>
    have hs : reaction_state db u.id pid = r.reaction_type := by simp [reaction_state, hr]
    obtain ⟨l₁, l₂, hdecomp, hmap, hpair'⟩ :=
      reactions_after_set db.reactions u.id pid r ReactionType.dislike huniq hr
    have hreactions : (send_dislike db u pid).2.reactions =
        l₁ ++ ({ r with reaction_type := some ReactionType.dislike } : ReactionRow) :: l₂ := by
      rw [send_dislike_snd_found db u pid post r hpost hr, add_dislike_to_post_eq]
      exact hmap
    have hposts := get_post_by_id_send_dislike db u pid post hpost
    rw [hs] at hposts
    have hkey := List.find?_some hr
    simp only [Bool.and_eq_true, beq_iff_eq] at hkey
    have huniq' : reactionKeysUnique (send_dislike db u pid).2 := by
      unfold reactionKeysUnique
      rw [hreactions]
      exact hpair'
    have hdc_new : dislikeRowCount (send_dislike db u pid).2 pid =
        l₁.countP (fun x => x.post_id == pid && x.reaction_type == some ReactionType.dislike) +
        l₂.countP (fun x => x.post_id == pid && x.reaction_type == some ReactionType.dislike)
          + 1 := by
      unfold dislikeRowCount
      rw [hreactions]
      exact countP_decomp_pos _ _ _ _ (by simp [hkey.1])
    have hlc_new : likeRowCount (send_dislike db u pid).2 pid =
        l₁.countP (fun x => x.post_id == pid && x.reaction_type == some ReactionType.like) +
        l₂.countP
          (fun x => x.post_id == pid && x.reaction_type == some ReactionType.like) := by
      unfold likeRowCount
      rw [hreactions]
      exact countP_decomp_neg _ _ _ _ (by simp)
    cases htype : r.reaction_type with
    | none =>
      have hlc_old : likeRowCount db pid =
          l₁.countP (fun x => x.post_id == pid && x.reaction_type == some ReactionType.like) +
          l₂.countP
            (fun x => x.post_id == pid && x.reaction_type == some ReactionType.like) := by
        unfold likeRowCount
        rw [hdecomp]
        exact countP_decomp_neg _ _ _ _ (by simp [htype])
      have hdc_old : dislikeRowCount db pid =
          l₁.countP (fun x => x.post_id == pid && x.reaction_type == some ReactionType.dislike) +
          l₂.countP
            (fun x => x.post_id == pid && x.reaction_type == some ReactionType.dislike) := by
        unfold dislikeRowCount
        rw [hdecomp]
        exact countP_decomp_neg _ _ _ _ (by simp [htype])
      rw [htype] at hposts
      refine ⟨huniq', dislike_counter_update post none, hposts, ?_, ?_⟩
      · rw [show (dislike_counter_update post none).likes_count = post.likes_count from rfl,
          hlc_new, hlike, hlc_old]
      · rw [show (dislike_counter_update post none).dislikes_count = post.dislikes_count + 1
          from rfl, hdc_new, hdis, hdc_old]
        push_cast
        ring
    | some t =>
      cases t with
      | like =>
        have hlc_old : likeRowCount db pid =
            l₁.countP (fun x => x.post_id == pid && x.reaction_type == some ReactionType.like) +
            l₂.countP (fun x => x.post_id == pid && x.reaction_type == some ReactionType.like)
              + 1 := by
          unfold likeRowCount
          rw [hdecomp]
          exact countP_decomp_pos _ _ _ _ (by simp [hkey.1, htype])
        have hdc_old : dislikeRowCount db pid =
            l₁.countP
              (fun x => x.post_id == pid && x.reaction_type == some ReactionType.dislike) +
            l₂.countP
              (fun x => x.post_id == pid && x.reaction_type == some ReactionType.dislike) := by
          unfold dislikeRowCount
          rw [hdecomp]
          exact countP_decomp_neg _ _ _ _ (by simp [htype])
        rw [htype] at hposts
        refine ⟨huniq', dislike_counter_update post (some ReactionType.like), hposts, ?_, ?_⟩
        · rw [show (dislike_counter_update post (some ReactionType.like)).likes_count =
              post.likes_count - 1 from rfl, hlc_new, hlike, hlc_old]
          push_cast
          ring
        · rw [show (dislike_counter_update post (some ReactionType.like)).dislikes_count =
              post.dislikes_count + 1 from rfl, hdc_new, hdis, hdc_old]
          push_cast
          ring
      | dislike =>
        have hlc_old : likeRowCount db pid =
            l₁.countP (fun x => x.post_id == pid && x.reaction_type == some ReactionType.like) +
            l₂.countP
              (fun x => x.post_id == pid && x.reaction_type == some ReactionType.like) := by
          unfold likeRowCount
          rw [hdecomp]
          exact countP_decomp_neg _ _ _ _ (by simp [htype])
        have hdc_old : dislikeRowCount db pid =
            l₁.countP
              (fun x => x.post_id == pid && x.reaction_type == some ReactionType.dislike) +
            l₂.countP
              (fun x => x.post_id == pid && x.reaction_type == some ReactionType.dislike)
              + 1 := by
          unfold dislikeRowCount
          rw [hdecomp]
          exact countP_decomp_pos _ _ _ _ (by simp [hkey.1, htype])
        rw [htype] at hposts
        refine ⟨huniq', dislike_counter_update post (some ReactionType.dislike), hposts,
          ?_, ?_⟩
        · rw [show (dislike_counter_update post (some ReactionType.dislike)).likes_count =
              post.likes_count from rfl, hlc_new, hlike, hlc_old]
        · rw [show (dislike_counter_update post (some ReactionType.dislike)).dislikes_count =
              post.dislikes_count from rfl, hdc_new, hdis, hdc_old]

/-- Auxiliary: engaged rows are exactly the like rows plus the dislike rows
(the two states are mutually exclusive). -/
theorem countP_engaged (l : List ReactionRow) (pid : String) :
    l.countP (fun r => r.post_id == pid &&
      (r.reaction_type == some ReactionType.like ||
        r.reaction_type == some ReactionType.dislike)) =
    l.countP (fun r => r.post_id == pid && r.reaction_type == some ReactionType.like) +
    l.countP (fun r => r.post_id == pid && r.reaction_type == some ReactionType.dislike) := by
  induction l with
  | nil => rfl
  | cons a t ih =>
    rw [List.countP_cons, List.countP_cons, List.countP_cons, ih]
    cases ha : a.reaction_type with
    | none => simp [ha]
    | some tt =>
      cases tt <;> by_cases hp : (a.post_id == pid) = true <;> simp [ha, hp] <;> omega

/-- Auxiliary: the counters-match-rows invariant survives any toggle
sequence on the post. -/
theorem applyOps_preserves_counts (pid : String) (ops : List ReactionOp) :
    ∀ (db : DB) (post : PostRow), reactionKeysUnique db →
      get_post_by_id db pid = some post →
      post.likes_count = (likeRowCount db pid : Int) →
      post.dislikes_count = (dislikeRowCount db pid : Int) →
      reactionKeysUnique (applyOps pid db ops) ∧
      ∃ post', get_post_by_id (applyOps pid db ops) pid = some post' ∧
        post'.likes_count = (likeRowCount (applyOps pid db ops) pid : Int) ∧
        post'.dislikes_count = (dislikeRowCount (applyOps pid db ops) pid : Int) := by
  induction ops with
  | nil =>
    intro db post h1 h2 h3 h4
    exact ⟨h1, post, h2, h3, h4⟩
  | cons op rest ih =>
    intro db post h1 h2 h3 h4
    obtain ⟨hu', post', hp', hl', hd'⟩ :
        reactionKeysUnique (applyOp pid db op) ∧
        ∃ post', get_post_by_id (applyOp pid db op) pid = some post' ∧
          post'.likes_count = (likeRowCount (applyOp pid db op) pid : Int) ∧
          post'.dislikes_count = (dislikeRowCount (applyOp pid db op) pid : Int) := by
      cases op with
      | like u => exact send_like_preserves_counts db u pid post h1 h2 h3 h4
      | dislike u => exact send_dislike_preserves_counts db u pid post h1 h2 h3 h4
    exact ih (applyOp pid db op) post' hu' hp' hl' hd'

end ToggleInvariant

/-- C3: starting from a post with zero counters and no reaction rows, after
any sequence of like/dislike toggles on that post, the stored `likesCount`
equals the number of reaction rows for the post in state like, the stored
`dislikesCount` the number in state dislike, their sum the number of rows in
state like or dislike, and both counters are non-negative. -/
theorem counters_equal_reaction_rows (pid : String) (ops : List ReactionOp)
    (db0 : DB) (post0 : PostRow)
    (hpost : get_post_by_id db0 pid = some post0)
    (hl0 : post0.likes_count = 0) (hd0 : post0.dislikes_count = 0)
    (hempty : db0.reactions = []) :
    ∃ post', get_post_by_id (applyOps pid db0 ops) pid = some post' ∧
      post'.likes_count = (likeRowCount (applyOps pid db0 ops) pid : Int) ∧
      post'.dislikes_count = (dislikeRowCount (applyOps pid db0 ops) pid : Int) ∧
      post'.likes_count + post'.dislikes_count =
        (engagedRowCount (applyOps pid db0 ops) pid : Int) ∧
      0 ≤ post'.likes_count ∧ 0 ≤ post'.dislikes_count := by
  have huniq0 : reactionKeysUnique db0 := by
    unfold reactionKeysUnique
    rw [hempty]
    exact List.Pairwise.nil
  have hlc0 : likeRowCount db0 pid = 0 := by
    unfold likeRowCount
    rw [hempty]
    rfl
  have hdc0 : dislikeRowCount db0 pid = 0 := by
    unfold dislikeRowCount
    rw [hempty]
    rfl
  obtain ⟨hu', post', hp', hl', hd'⟩ := applyOps_preserves_counts pid ops db0 post0 huniq0
    hpost (by rw [hl0, hlc0]; rfl) (by rw [hd0, hdc0]; rfl)
  have hsum : engagedRowCount (applyOps pid db0 ops) pid =
      likeRowCount (applyOps pid db0 ops) pid + dislikeRowCount (applyOps pid db0 ops) pid :=
    countP_engaged _ pid
  refine ⟨post', hp', hl', hd', ?_, ?_, ?_⟩
  · rw [hl', hd', hsum]
    push_cast
    ring
  · rw [hl']
    exact Int.natCast_nonneg _
  · rw [hd']
    exact Int.natCast_nonneg _

/-- Witness for C3: in `exSeqDB`, after user 1 likes, user 2 likes and user 1
switches to dislike, the invariant holds at the resulting state. -/
theorem counters_equal_reaction_rows_witness :
    ∃ post', get_post_by_id (applyOps "p" exSeqDB
        [ReactionOp.like ⟨1, "alice", true⟩, ReactionOp.like ⟨2, "bob", true⟩,
          ReactionOp.dislike ⟨1, "alice", true⟩]) "p" = some post' ∧
      post'.likes_count = (likeRowCount (applyOps "p" exSeqDB
        [ReactionOp.like ⟨1, "alice", true⟩, ReactionOp.like ⟨2, "bob", true⟩,
          ReactionOp.dislike ⟨1, "alice", true⟩]) "p" : Int) ∧
      post'.dislikes_count = (dislikeRowCount (applyOps "p" exSeqDB
        [ReactionOp.like ⟨1, "alice", true⟩, ReactionOp.like ⟨2, "bob", true⟩,
          ReactionOp.dislike ⟨1, "alice", true⟩]) "p" : Int) ∧
      post'.likes_count + post'.dislikes_count = (engagedRowCount (applyOps "p" exSeqDB
        [ReactionOp.like ⟨1, "alice", true⟩, ReactionOp.like ⟨2, "bob", true⟩,
          ReactionOp.dislike ⟨1, "alice", true⟩]) "p" : Int) ∧
      0 ≤ post'.likes_count ∧ 0 ≤ post'.dislikes_count :=
  counters_equal_reaction_rows "p"
    [ReactionOp.like ⟨1, "alice", true⟩, ReactionOp.like ⟨2, "bob", true⟩,
      ReactionOp.dislike ⟨1, "alice", true⟩]
    exSeqDB ⟨"p", "hi", 1, 0, 0⟩ (by decide) rfl rfl rfl

end ProdAPI
